import Mathlib

/-!
Verification of the BBXX marine weather report plugin
(sampling/averaging pipeline, BBXX encoder, BBXX decoder/validator).

The JavaScript source is embedded shallowly:

* JavaScript numbers are modelled as rationals for the codec
  (src/weatherReport.js, src/validate_bbxx.js), whose arithmetic is
  division-by-ten, rounding and comparisons, and as reals for the
  trigonometric sampling pipeline (src/signalkReader.js).
* Math.round is the Mathlib round (round half toward positive infinity,
  which is exactly the JavaScript behaviour).
* null is modelled by Option.none; NaN produced by parseInt is also
  modelled by none, and the JavaScript comparison semantics with NaN
  (every comparison false) is modelled by the jsLt / jsGt helpers below.
* Strings are Lean strings; the helpers below model Number.prototype.toString,
  String.prototype.padStart, String.prototype.substring, split and parseInt.
-/

/-- Decimal digit character, digitChar d is the character for digit d < 10
(model of the digits emitted by Number.prototype.toString). -/
def digitChar (d : ℕ) : Char :=
  match d with
  | 0 => '0' | 1 => '1' | 2 => '2' | 3 => '3' | 4 => '4'
  | 5 => '5' | 6 => '6' | 7 => '7' | 8 => '8' | _ => '9'

/-- Decimal digit list of a natural number, most significant first
(model of Number.prototype.toString for a nonnegative integer value). -/
def natDigits (n : ℕ) : List Char :=
  if h : n < 10 then [digitChar n]
  else natDigits (n / 10) ++ [digitChar (n % 10)]
  termination_by n
  decreasing_by exact Nat.div_lt_self (by omega) (by omega)

/-- Model of Number.prototype.toString for a natural number. -/
def natToString (n : ℕ) : String := ⟨natDigits n⟩

/-- Model of Number.prototype.toString for an integer value. -/
def intToString (i : ℤ) : String :=
  if i < 0 then "-" ++ natToString i.natAbs else natToString i.natAbs

/-- Model of String.prototype.padStart (no truncation when already long enough). -/
def padStart (s : String) (w : ℕ) (c : Char) : String :=
  ⟨List.replicate (w - s.length) c ++ s.data⟩

/-- Model of String.prototype.split with a single-space separator, at the
character-list level: every space starts a new piece, empty pieces kept. -/
def splitChar : List Char → List (List Char)
  | [] => [[]]
  | c :: cs =>
    if c = ' ' then [] :: splitChar cs
    else
      match splitChar cs with
      | [] => [[c]]
      | h :: t => (c :: h) :: t

/-- Model of message.split with a single-space separator on strings. -/
def jsSplit (s : String) : List String := (splitChar s.data).map String.mk

/-- Model of String.prototype.substring with two arguments (start, stop). -/
def jsSubstring (s : String) (a b : ℕ) : String := ⟨(s.data.drop a).take (b - a)⟩

/-- Model of String.prototype.startsWith. -/
def jsStartsWith (s p : String) : Bool := p.data.isPrefixOf s.data

/-- Model of String.prototype.endsWith. -/
def jsEndsWith (s p : String) : Bool := p.data.isSuffixOf s.data

/-- Value of a digit string (used to model parseInt on a digit prefix). -/
def digitsVal (l : List Char) : ℕ := l.foldl (fun a c => 10 * a + (c.toNat - 48)) 0

/-- Maximal leading digit run of a character list, none when there is none
(the digit-consuming core of parseInt; none models NaN). -/
def leadDigits (l : List Char) : Option ℕ :=
  let ds := l.takeWhile Char.isDigit
  if ds = [] then none else some (digitsVal ds)

/-- Model of parseInt on the strings arising here: an optional sign followed
by a maximal digit run; none models NaN. -/
def parseIntJs (s : String) : Option ℤ :=
  match s.data with
  | [] => none
  | c :: rest =>
    if c = '-' then (leadDigits rest).map (fun n => -(n : ℤ))
    else if c = '+' then (leadDigits rest).map (fun n => (n : ℤ))
    else (leadDigits (c :: rest)).map (fun n => (n : ℤ))

/-- JavaScript comparison value less-than with NaN semantics: any comparison
against NaN (modelled none) is false. -/
def jsLt {α : Type} [LinearOrder α] (a : Option α) (b : α) : Bool :=
  match a with
  | none => false
  | some x => decide (x < b)

/-- JavaScript comparison value greater-than with NaN semantics. -/
def jsGt {α : Type} [LinearOrder α] (a : Option α) (b : α) : Bool :=
  match a with
  | none => false
  | some x => decide (b < x)

/-- JavaScript greater-or-equal with NaN semantics. -/
def jsGe {α : Type} [LinearOrder α] (a : Option α) (b : α) : Bool :=
  match a with
  | none => false
  | some x => decide (b ≤ x)

theorem digitChar_isDigit : ∀ d : ℕ, d < 10 → (digitChar d).isDigit = true := by decide

theorem digitChar_toNat : ∀ d : ℕ, d < 10 → (digitChar d).toNat = 48 + d := by decide

theorem natDigits_all_digits (n : ℕ) : ∀ c ∈ natDigits n, c.isDigit = true := by
  induction n using Nat.strong_induction_on with
  | _ n ih =>
    rw [natDigits]
    split
    · intro c hc
      simp only [List.mem_singleton] at hc
      subst hc
      exact digitChar_isDigit n (by omega)
    · intro c hc
      rcases List.mem_append.mp hc with h | h
      · exact ih (n / 10) (Nat.div_lt_self (by omega) (by omega)) c h
      · simp only [List.mem_singleton] at h
        subst h
        exact digitChar_isDigit (n % 10) (Nat.mod_lt _ (by omega))

theorem natDigits_ne_nil (n : ℕ) : natDigits n ≠ [] := by
  rw [natDigits]
  split
  · simp
  · simp

theorem natDigits_length_le (k : ℕ) : ∀ n : ℕ, n < 10 ^ k → 0 < k → (natDigits n).length ≤ k := by
  induction k with
  | zero => omega
  | succ k ih =>
    intro n hn _
    rw [natDigits]
    split
    · simp
    · rename_i h
      rw [List.length_append]
      have hk : 0 < k := by
        rcases Nat.eq_zero_or_pos k with rfl | hk
        · simp at hn; omega
        · exact hk
      have : (natDigits (n / 10)).length ≤ k := by
        refine ih (n / 10) ?_ hk
        have : n < 10 ^ k * 10 := by
          calc n < 10 ^ (k + 1) := hn
          _ = 10 ^ k * 10 := by ring
        omega
      simp only [List.length_singleton]
      omega

theorem digitsVal_natDigits (n : ℕ) : digitsVal (natDigits n) = n := by
  induction n using Nat.strong_induction_on with
  | _ n ih =>
    rw [natDigits]
    split
    · rename_i h
      simp only [digitsVal, List.foldl_cons, List.foldl_nil]
      rw [digitChar_toNat n h]
      omega
    · rename_i h
      have hrec := ih (n / 10) (Nat.div_lt_self (by omega) (by omega))
      simp only [digitsVal] at hrec ⊢
      rw [List.foldl_append]
      simp only [List.foldl_cons, List.foldl_nil, hrec]
      rw [digitChar_toNat (n % 10) (Nat.mod_lt _ (by omega))]
      omega

theorem digitsVal_replicate_zero (k : ℕ) (l : List Char) :
    digitsVal (List.replicate k '0' ++ l) = digitsVal l := by
  induction k with
  | zero => simp
  | succ k ih =>
    simp only [List.replicate_succ, List.cons_append, digitsVal, List.foldl_cons]
    simpa [digitsVal] using ih

theorem padStart_length (s : String) (w : ℕ) (c : Char) :
    (padStart s w c).length = max w s.length := by
  have hl : s.length = s.data.length := rfl
  simp only [padStart, String.length_mk, List.length_append, List.length_replicate, hl]
  omega

theorem padStart_data (s : String) (w : ℕ) (c : Char) :
    (padStart s w c).data = List.replicate (w - s.length) c ++ s.data := rfl

theorem natToString_length_le (n k : ℕ) (hn : n < 10 ^ k) (hk : 0 < k) :
    (natToString n).length ≤ k := by
  simpa [natToString, String.length_mk] using natDigits_length_le k n hn hk

theorem splitChar_ne_nil (l : List Char) : splitChar l ≠ [] := by
  cases l with
  | nil => simp [splitChar]
  | cons c cs =>
    rw [splitChar]
    split
    · simp
    · split <;> simp

theorem splitChar_append_space (a b : List Char) (ha : ' ' ∉ a) :
    splitChar (a ++ ' ' :: b) = a :: splitChar b := by
  induction a with
  | nil => simp [splitChar]
  | cons c cs ih =>
    have hc : c ≠ ' ' := fun h => ha (h ▸ List.mem_cons_self c cs)
    have hcs : ' ' ∉ cs := fun h => ha (List.mem_cons_of_mem c h)
    simp only [List.cons_append, splitChar, if_neg hc, List.append_eq, ih hcs]

theorem splitChar_no_space (a : List Char) (ha : ' ' ∉ a) : splitChar a = [a] := by
  induction a with
  | nil => simp [splitChar]
  | cons c cs ih =>
    have hc : c ≠ ' ' := fun h => ha (h ▸ List.mem_cons_self c cs)
    have hcs : ' ' ∉ cs := fun h => ha (List.mem_cons_of_mem c h)
    simp only [splitChar, if_neg hc, ih hcs]

theorem takeWhile_eq_self_of_all {p : Char → Bool} (l : List Char)
    (h : ∀ c ∈ l, p c = true) : l.takeWhile p = l := by
  induction l with
  | nil => rfl
  | cons c cs ih =>
    simp only [List.takeWhile_cons, h c (List.mem_cons_self c cs), ih
      (fun x hx => h x (List.mem_cons_of_mem c hx))]
    simp

theorem leadDigits_all_digits (l : List Char) (hne : l ≠ [])
    (h : ∀ c ∈ l, c.isDigit = true) : leadDigits l = some (digitsVal l) := by
  simp only [leadDigits, takeWhile_eq_self_of_all l h, if_neg hne]

theorem digit_ne_minus {c : Char} (h : c.isDigit = true) : c ≠ '-' := by
  intro hc; subst hc; simp [Char.isDigit] at h

theorem digit_ne_plus {c : Char} (h : c.isDigit = true) : c ≠ '+' := by
  intro hc; subst hc; simp [Char.isDigit] at h

theorem digit_ne_space {c : Char} (h : c.isDigit = true) : c ≠ ' ' := by
  intro hc; subst hc; simp [Char.isDigit] at h

theorem digit_ne_slash {c : Char} (h : c.isDigit = true) : c ≠ '/' := by
  intro hc; subst hc; simp [Char.isDigit] at h

theorem parseIntJs_digits (l : List Char) (hne : l ≠ [])
    (h : ∀ c ∈ l, c.isDigit = true) :
    parseIntJs ⟨l⟩ = some ((digitsVal l : ℕ) : ℤ) := by
  cases l with
  | nil => exact absurd rfl hne
  | cons c cs =>
    have hc := h c (List.mem_cons_self c cs)
    simp only [parseIntJs, if_neg (digit_ne_minus hc), if_neg (digit_ne_plus hc)]
    rw [leadDigits_all_digits _ (by simp) h]
    rfl

theorem parseIntJs_pad_digits (l : List Char) (k : ℕ) (hne : l ≠ [])
    (h : ∀ c ∈ l, c.isDigit = true) :
    parseIntJs ⟨List.replicate k '0' ++ l⟩ = some ((digitsVal l : ℕ) : ℤ) := by
  rw [parseIntJs_digits _ (by cases l; exact absurd rfl hne; simp) ?_]
  · rw [digitsVal_replicate_zero]
  · intro c hc
    rcases List.mem_append.mp hc with hm | hm
    · rw [List.eq_of_mem_replicate hm]; decide
    · exact h c hm

theorem parseIntJs_padStart_natToString (n w : ℕ) :
    parseIntJs (padStart (natToString n) w '0') = some (n : ℤ) := by
  have : (padStart (natToString n) w '0').data
      = List.replicate (w - (natToString n).length) '0' ++ natDigits n := rfl
  calc parseIntJs (padStart (natToString n) w '0')
      = parseIntJs ⟨List.replicate (w - (natToString n).length) '0' ++ natDigits n⟩ := rfl
    _ = some ((digitsVal (natDigits n) : ℕ) : ℤ) :=
        parseIntJs_pad_digits _ _ (natDigits_ne_nil n) (natDigits_all_digits n)
    _ = some ((n : ℕ) : ℤ) := by rw [digitsVal_natDigits]

/-- Space-separated join, modelling the single-space-separated template
literal that builds the BBXX message in generateBbxxReport. -/
def joinSpace : List String → String
  | [] => ""
  | [g] => g
  | g :: gs => g ++ " " ++ joinSpace gs

/-- BBXX quadrant code (weatherReport.js getBbxxQuadrant): 1 for N/E, 3 for
S/E, 5 for S/W, 7 for N/W, 9 unreachable fallback. -/
def getBbxxQuadrant (lat lon : ℚ) : ℕ :=
  if 0 ≤ lat ∧ 0 ≤ lon then 1
  else if lat < 0 ∧ 0 ≤ lon then 3
  else if lat < 0 ∧ lon < 0 then 5
  else if 0 ≤ lat ∧ lon < 0 then 7
  else 9

/-- Day, hour (UTC) and wind indicator 4 group of generateBbxxReport:
two-digit day, two-digit hour, literal 4. -/
def dayHour (day hour : ℕ) : String :=
  padStart (natToString day) 2 '0' ++ padStart (natToString hour) 2 '0' ++ "4"

/-- Latitude group of generateBbxxReport: the literal 99 followed by the
absolute latitude in tenths, zero-padded to 3 digits. -/
def latCode (lat : ℚ) : String :=
  "99" ++ padStart (intToString (round (|lat| * 10))) 3 '0'

/-- Longitude group of generateBbxxReport: quadrant digit followed by the
absolute longitude in tenths, zero-padded to 4 digits. -/
def lonCode (lat lon : ℚ) : String :=
  natToString (getBbxxQuadrant lat lon) ++ padStart (intToString (round (|lon| * 10))) 4 '0'

/-- Cloud and wind group of generateBbxxReport: slash, wind direction in tens
of degrees (2 digits), wind speed in knots (2 digits if below 100, else the
slash-slash sentinel); the whole group is the 5-slash sentinel when direction
or speed is null. -/
def cloudWindGroup (trueWindDirection trueWindSpeed : Option ℚ) : String :=
  match trueWindDirection, trueWindSpeed with
  | some d, some s =>
    "/" ++ padStart (intToString (round (d / 10))) 2 '0' ++
      (if s < 100 then padStart (intToString (round s)) 2 '0' else "//")
  | _, _ => "/////"

/-- Water temperature group of generateBbxxReport: 0, then sign digit 4 for
nonnegative and 5 for negative, then the absolute temperature in tenths
zero-padded to 3 digits; the literal 0//// when the temperature is null. -/
def tempCode (waterTemp : Option ℚ) : String :=
  match waterTemp with
  | some t =>
    "0" ++ (if 0 ≤ t then "4" else "5") ++ padStart (intToString (round (|t| * 10))) 3 '0'
  | none => "0////"

/-- The BBXX encoder (weatherReport.js generateBbxxReport). The UTC time
argument is modelled by its UTC day-of-month and hour; the template literal
of the source joins the groups below with single spaces, in this order. -/
def generateBbxxReport (trueWindDirection trueWindSpeed : Option ℚ) (lat lon : ℚ)
    (day hour : ℕ) (stationId : String) (waterTemp : Option ℚ) : String :=
  joinSpace ["BBXX", stationId, dayHour day hour, latCode lat, lonCode lat lon,
    "43///", cloudWindGroup trueWindDirection trueWindSpeed,
    "1////", "2////", "4////", "5////", "7////", "8////", "222//",
    tempCode waterTemp,
    "0////", "2////", "3////", "4////", "5////", "6////", "8////", "ICE", "/////="]

/-- The averaged observation handed to the encoder (spec section 3): position,
true wind, optional water temperature, and the report time reduced to its UTC
day and hour. Fields not read by the encoder are omitted. -/
structure AveragedObservation where
  lat : ℚ
  lon : ℚ
  trueWindDir : Option ℚ
  trueWindSpeed : Option ℚ
  waterTemp : Option ℚ
  day : ℕ
  hour : ℕ
  deriving DecidableEq

/-- Encode entry point: encode an averaged observation with a station id. -/
def encode (o : AveragedObservation) (stationId : String) : String :=
  generateBbxxReport o.trueWindDir o.trueWindSpeed o.lat o.lon o.day o.hour
    stationId o.waterTemp

/-- The AveragedObservation invariant of spec section 3: position in range,
true wind present with direction normalized into the interval from 0 to 360
and nonnegative speed, and a valid UTC day and hour. -/
def ObsInvariant (o : AveragedObservation) : Prop :=
  -90 ≤ o.lat ∧ o.lat ≤ 90 ∧ -180 ≤ o.lon ∧ o.lon ≤ 180 ∧
    (∃ d, o.trueWindDir = some d ∧ 0 ≤ d ∧ d < 360) ∧
    (∃ s, o.trueWindSpeed = some s ∧ 0 ≤ s) ∧
    1 ≤ o.day ∧ o.day ≤ 31 ∧ o.hour ≤ 23

theorem noSpace_natToString (n : ℕ) : ' ' ∉ (natToString n).data := by
  intro h
  exact absurd (natDigits_all_digits n ' ' h) (by decide)

theorem noSpace_intToString (i : ℤ) : ' ' ∉ (intToString i).data := by
  unfold intToString
  split
  · rw [String.data_append]
    intro h
    rcases List.mem_append.mp h with hm | hm
    · revert hm; decide
    · exact noSpace_natToString _ hm
  · exact noSpace_natToString _

theorem noSpace_padStart (s : String) (w : ℕ) (hs : ' ' ∉ s.data) :
    ' ' ∉ (padStart s w '0').data := by
  rw [padStart_data]
  intro h
  rcases List.mem_append.mp h with hm | hm
  · have := List.eq_of_mem_replicate hm
    exact absurd this (by decide)
  · exact hs hm

theorem noSpace_append (s t : String) (hs : ' ' ∉ s.data) (ht : ' ' ∉ t.data) :
    ' ' ∉ (s ++ t).data := by
  rw [String.data_append]
  intro h
  rcases List.mem_append.mp h with hm | hm
  · exact hs hm
  · exact ht hm

theorem noSpace_dayHour (d h : ℕ) : ' ' ∉ (dayHour d h).data := by
  unfold dayHour
  refine noSpace_append _ _ (noSpace_append _ _ ?_ ?_) (by decide)
  · exact noSpace_padStart _ _ (noSpace_natToString d)
  · exact noSpace_padStart _ _ (noSpace_natToString h)

theorem noSpace_latCode (lat : ℚ) : ' ' ∉ (latCode lat).data := by
  unfold latCode
  exact noSpace_append _ _ (by decide) (noSpace_padStart _ _ (noSpace_intToString _))

theorem noSpace_lonCode (lat lon : ℚ) : ' ' ∉ (lonCode lat lon).data := by
  unfold lonCode
  exact noSpace_append _ _ (noSpace_natToString _) (noSpace_padStart _ _ (noSpace_intToString _))

theorem noSpace_cloudWindGroup (d s : Option ℚ) : ' ' ∉ (cloudWindGroup d s).data := by
  cases d with
  | none => cases s with
    | none => decide
    | some s => show ' ' ∉ ("/////" : String).data; decide
  | some d =>
    cases s with
    | none => show ' ' ∉ ("/////" : String).data; decide
    | some s =>
      show ' ' ∉ ("/" ++ padStart (intToString (round (d / 10))) 2 '0' ++
        (if s < 100 then padStart (intToString (round s)) 2 '0' else "//")).data
      refine noSpace_append _ _ (noSpace_append _ _ (by decide)
        (noSpace_padStart _ _ (noSpace_intToString _))) ?_
      split
      · exact noSpace_padStart _ _ (noSpace_intToString _)
      · decide

theorem noSpace_tempCode (t : Option ℚ) : ' ' ∉ (tempCode t).data := by
  cases t with
  | none => decide
  | some t =>
    show ' ' ∉ ("0" ++ (if 0 ≤ t then "4" else "5") ++
      padStart (intToString (round (|t| * 10))) 3 '0').data
    refine noSpace_append _ _ (noSpace_append _ _ (by decide) ?_)
      (noSpace_padStart _ _ (noSpace_intToString _))
    split
    · decide
    · decide

theorem jsSplit_joinSpace (gs : List String) (hne : gs ≠ [])
    (h : ∀ g ∈ gs, ' ' ∉ g.data) : jsSplit (joinSpace gs) = gs := by
  induction gs with
  | nil => exact absurd rfl hne
  | cons g gs ih =>
    cases gs with
    | nil =>
      simp only [jsSplit, joinSpace]
      rw [splitChar_no_space _ (h g (List.mem_cons_self g []))]
      rfl
    | cons g2 t =>
      have hdata : (joinSpace (g :: g2 :: t)).data
          = g.data ++ ' ' :: (joinSpace (g2 :: t)).data := by
        show (g ++ " " ++ joinSpace (g2 :: t)).data = _
        simp [String.data_append]
      simp only [jsSplit, hdata]
      rw [splitChar_append_space _ _ (h g (List.mem_cons_self g _))]
      have ihh := ih (by simp) (fun x hx => h x (List.mem_cons_of_mem g hx))
      simp only [jsSplit] at ihh
      simp [ihh]

/-- Model of String.prototype.substring with one argument (start to end). -/
def jsSubstringFrom (s : String) (a : ℕ) : String := ⟨s.data.drop a⟩

/-- Severity of a reported issue of the decoder: the ERROR console lines of
validate_bbxx.js (which also clear isValid) versus its WARNING lines. -/
inductive Severity
  | error
  | warning
  deriving DecidableEq

/-- One reported issue of the decoder (an ERROR or WARNING console line). -/
structure Issue where
  sev : Severity
  msg : String
  deriving DecidableEq

/-- Which branch the wind-group section of validate_bbxx.js takes: values
parsed, data omitted (a slash-slash subfield), or invalid format. -/
inductive WindClass
  | parsed
  | omitted
  | invalid
  deriving DecidableEq

/-- The analysis record built by validateAndDecodeBbxx; a field is none when
the source leaves it unassigned or assigns NaN to it. -/
structure Analysis where
  messageType : Option String := none
  stationId : Option String := none
  dayHourWind : Option String := none
  day : Option ℤ := none
  hour : Option ℤ := none
  windIndicator : Option ℤ := none
  latitudeCode : Option String := none
  latitude : Option ℚ := none
  longitudeCode : Option String := none
  quadrant : Option ℤ := none
  longitudeTenths : Option ℤ := none
  longitude : Option ℚ := none
  actualLongitude : Option ℚ := none
  precipitation : Option String := none
  windGroup : Option String := none
  windDirection : Option ℤ := none
  windSpeed : Option ℤ := none
  tempGroup : Option String := none
  waterTemperature : Option ℚ := none
  deriving DecidableEq, Inhabited

/-- Return value of validateAndDecodeBbxx: the bare false returned on fewer
than 15 parts, or the isValid-and-analysis record returned otherwise. -/
inductive DecodeRet
  | earlyFalse
  | ok (isValid : Bool) (analysis : Analysis)
  deriving DecidableEq, Inhabited

/-- Day, hour and wind-indicator section of validateAndDecodeBbxx (step 3):
on a 5-character group parse the three subfields and warn when day or hour is
out of range; otherwise error. -/
def dayHourStep (p : String) : (Option ℤ × Option ℤ × Option ℤ) × Bool × List Issue :=
  if p.length = 5 then
    let day := parseIntJs (jsSubstring p 0 2)
    let hour := parseIntJs (jsSubstring p 2 4)
    let windIndicator := parseIntJs (jsSubstring p 4 5)
    ((day, hour, windIndicator), true,
      if jsLt day 1 || jsGt day 31 || jsLt hour 0 || jsGt hour 23 then
        [⟨.warning, "Day or hour out of valid range"⟩]
      else [])
  else ((none, none, none), false, [⟨.error, "Invalid day/hour/wind format"⟩])

/-- Latitude section of validateAndDecodeBbxx (step 4): a 5-character group
starting with 99, the rest parsed as tenths of a degree; out-of-range decoded
latitude or bad shape is an error. -/
def latStep (p : String) : Option ℚ × Bool × List Issue :=
  if p.length = 5 ∧ jsStartsWith p "99" = true then
    let latTenths := parseIntJs (jsSubstringFrom p 2)
    let latitude := latTenths.map (fun (z : ℤ) => (z : ℚ) / 10)
    if jsLt latitude 0 || jsGt latitude 90 then
      (latitude, false, [⟨.error, "Latitude out of valid range"⟩])
    else (latitude, true, [])
  else (none, false, [⟨.error, "Invalid latitude format"⟩])

/-- Longitude section of validateAndDecodeBbxx (step 5): quadrant digit plus
tenths of a degree; quadrants 5 and 7 negate the longitude; a quadrant outside
1, 3, 5, 7 or an out-of-range longitude is an error. -/
def lonStep (p : String) :
    (Option ℤ × Option ℤ × Option ℚ × Option ℚ) × Bool × List Issue :=
  if p.length = 5 then
    let quadrant := parseIntJs (jsSubstring p 0 1)
    let lonTenths := parseIntJs (jsSubstringFrom p 1)
    let longitude := lonTenths.map (fun (z : ℤ) => (z : ℚ) / 10)
    let actualLongitude :=
      if quadrant = some 5 ∨ quadrant = some 7 then longitude.map Neg.neg else longitude
    let badQuad : Bool :=
      ¬(quadrant = some 1 ∨ quadrant = some 3 ∨ quadrant = some 5 ∨ quadrant = some 7)
    let badLon : Bool := jsGt (actualLongitude.map abs) 180
    ((quadrant, lonTenths, longitude, actualLongitude), !(badQuad || badLon),
      (if badQuad then [⟨.error, "Invalid quadrant"⟩] else []) ++
        (if badLon then [⟨.error, "Longitude out of valid range"⟩] else []))
  else ((none, none, none, none), false, [⟨.error, "Invalid longitude format"⟩])

/-- Precipitation section of validateAndDecodeBbxx (step 6): never invalid,
a warning when the group is not the standard omitted literal. -/
def precipStep (p : String) : Bool × List Issue :=
  if p = "43///" then (true, [])
  else (true, [⟨.warning, "Precipitation non-standard"⟩])

/-- Wind section of validateAndDecodeBbxx (step 7): a 5-character group
starting with a slash; when neither two-character subfield is the
slash-slash sentinel, direction tens and speed are parsed (direction range is
an error, speed range a warning); when one is, wind data is omitted; any
other shape is an error. -/
def windStep (p : String) : (Option ℤ × Option ℤ) × WindClass × Bool × List Issue :=
  if p.length = 5 ∧ jsStartsWith p "/" = true then
    let windDirTens := jsSubstring p 1 3
    let windSpeedS := jsSubstring p 3 5
    if windDirTens ≠ "//" ∧ windSpeedS ≠ "//" then
      let windDirection := (parseIntJs windDirTens).map (· * 10)
      let windSpeed := parseIntJs windSpeedS
      let e : Bool := jsLt windDirection 0 || jsGt windDirection 360
      let w : Bool := jsLt windSpeed 0 || jsGe windSpeed 100
      ((windDirection, windSpeed), .parsed, !e,
        (if e then [⟨.error, "Wind direction out of valid range"⟩] else []) ++
          (if w then [⟨.warning, "Wind speed unusual"⟩] else []))
    else ((none, none), .omitted, true, [])
  else ((none, none), .invalid, false, [⟨.error, "Invalid wind group format"⟩])

/-- Water temperature section of validateAndDecodeBbxx (step 10): a
5-character group starting with 0; sign digit 4 or 5 selects the sign of the
parsed tenths (range outside -5 to 40 is a warning), any other sign digit is
a warning; the all-slash alternative branch of the source is kept even though
a 0//// group already takes the first branch; other shapes are errors. -/
def tempStep (tg : String) : Option ℚ × Bool × List Issue :=
  if tg.length = 5 ∧ jsStartsWith tg "0" = true then
    let tempSign := jsSubstring tg 1 2
    let tempValue := jsSubstring tg 2 5
    if tempSign = "4" ∨ tempSign = "5" then
      let tempTenths := parseIntJs tempValue
      let temperature := tempTenths.map (fun (z : ℤ) => (z : ℚ) / 10)
      let actualTemp := if tempSign = "4" then temperature else temperature.map Neg.neg
      (actualTemp, true,
        if jsLt actualTemp (-5) || jsGt actualTemp 40 then
          [⟨.warning, "Water temperature outside typical range"⟩]
        else [])
    else (none, true, [⟨.warning, "Water temperature unusual sign indicator"⟩])
  else if tg = "0////" then (none, true, [])
  else (none, false, [⟨.error, "Invalid water temperature format"⟩])

/-- The BBXX decoder and validator (validate_bbxx.js validateAndDecodeBbxx).
Returns the source return value (bare false, or isValid with the analysis
record) together with the list of ERROR and WARNING console lines it emits,
modelled as structured issues. -/
def validateAndDecodeBbxx (msg : String) : DecodeRet × List Issue :=
  let parts := jsSplit msg
  if parts.length < 15 then
    (.earlyFalse, [⟨.error, "Invalid BBXX format - insufficient parts"⟩])
  else
    let messageType := parts.getD 0 ""
    let (mtOk, mtIss) : Bool × List Issue :=
      if messageType = "BBXX" then (true, [])
      else (false, [⟨.error, "Invalid message type, should be BBXX"⟩])
    let stationId := parts.getD 1 ""
    let (dhw, dhOk, dhIss) := dayHourStep (parts.getD 2 "")
    let (lat, latOk, latIss) := latStep (parts.getD 3 "")
    let (lonF, lonOk, lonIss) := lonStep (parts.getD 4 "")
    let (_pOk, pIss) := precipStep (parts.getD 5 "")
    let (windF, _windClass, windOk, windIss) := windStep (parts.getD 6 "")
    let section2Index := parts.findIdx? (fun p => p = "222//")
    let (tempGroupF, waterTemp, tOk, tIss) :
        Option String × Option ℚ × Bool × List Issue :=
      match section2Index with
      | some idx =>
        if idx + 1 < parts.length then
          let tg := parts.getD (idx + 1) ""
          let (wt, ok, iss) := tempStep tg
          (some tg, wt, ok, iss)
        else (none, none, true, [])
      | none => (none, none, false, [⟨.error, "Missing section 2 identifier"⟩])
    let termIss :=
      if jsEndsWith msg "=" = true then []
      else [⟨.warning, "Message should end with equals sign"⟩]
    let isValid := mtOk && dhOk && latOk && lonOk && windOk && tOk
    (.ok isValid
      { messageType := some messageType
        stationId := some stationId
        dayHourWind := some (parts.getD 2 "")
        day := dhw.1, hour := dhw.2.1, windIndicator := dhw.2.2
        latitudeCode := some (parts.getD 3 ""), latitude := lat
        longitudeCode := some (parts.getD 4 "")
        quadrant := lonF.1, longitudeTenths := lonF.2.1
        longitude := lonF.2.2.1, actualLongitude := lonF.2.2.2
        precipitation := some (parts.getD 5 "")
        windGroup := some (parts.getD 6 "")
        windDirection := windF.1, windSpeed := windF.2
        tempGroup := tempGroupF, waterTemperature := waterTemp },
      mtIss ++ dhIss ++ latIss ++ lonIss ++ pIss ++ windIss ++ tIss ++ termIss)

/-- JavaScript truncation toward zero (used by the remainder operator). -/
noncomputable def jsTrunc (x : ℝ) : ℤ := if 0 ≤ x then ⌊x⌋ else ⌈x⌉

/-- The JavaScript remainder operator on numbers: sign follows the dividend,
a - b * trunc (a / b). -/
noncomputable def jsFmod (a b : ℝ) : ℝ := a - b * jsTrunc (a / b)

/-- Math.atan2 y x, modelled as the argument of the complex number x + y i
(range from minus pi exclusive to pi inclusive, zero at the positive axis). -/
noncomputable def jsAtan2 (y x : ℝ) : ℝ := Complex.arg ⟨x, y⟩

/-- The normalization expression of signalkReader.js, the remainder pattern
that maps a degree value into the interval from 0 to 360. -/
noncomputable def normalizeDeg (x : ℝ) : ℝ := jsFmod (jsFmod x 360 + 360) 360

/-- signalkReader.js mpsToKnots: multiply by 1.94384, propagating null. -/
noncomputable def mpsToKnots (v : Option ℝ) : Option ℝ := v.map (fun x => x * 1.94384)

/-- signalkReader.js radiansToDegrees: multiply by 180 over pi, propagating null. -/
noncomputable def radiansToDegrees (r : Option ℝ) : Option ℝ :=
  r.map (fun x => x * 180 / Real.pi)

/-- The Kelvin heuristic of signalkReader.js collectSample: a non-null raw
water temperature above 200 is treated as Kelvin and converted to Celsius by
subtracting 273.15, anything else passes through unchanged. -/
noncomputable def kelvinToCelsius (v : Option ℝ) : Option ℝ :=
  match v with
  | some t => if 200 < t then some (t - 273.15) else some t
  | none => none

/-- signalkReader.js averageAngles: null on an empty input or any null
element, otherwise the atan2 of the mean sine and mean cosine, converted to
degrees and normalized into the interval from 0 to 360. -/
noncomputable def averageAngles (angles : List (Option ℝ)) : Option ℝ :=
  if angles.isEmpty || angles.any Option.isNone then none
  else
    let radAngles := angles.reduceOption.map (fun a => a * Real.pi / 180)
    let meanSin := (radAngles.map Real.sin).sum / radAngles.length
    let meanCos := (radAngles.map Real.cos).sum / radAngles.length
    let meanAngle := jsAtan2 meanSin meanCos * 180 / Real.pi
    some (normalizeDeg meanAngle)

/-- signalkReader.js calculateTrueWind: null pair when any input is null;
otherwise direction is heading plus apparent angle (converted through radians
and back) normalized into 0 to 360, and speed is the law-of-cosines magnitude
over apparent wind speed and speed over ground. -/
noncomputable def calculateTrueWind (awa aws trueHeading sog : Option ℝ) :
    Option ℝ × Option ℝ :=
  match awa, aws, trueHeading, sog with
  | some awa, some aws, some trueHeading, some sog =>
    let awaRad := awa * Real.pi / 180
    let headingRad := trueHeading * Real.pi / 180
    let twDirRad := headingRad + awaRad
    let twDir := normalizeDeg (twDirRad * 180 / Real.pi)
    let twSpeed := Real.sqrt (aws * aws + sog * sog - 2 * aws * sog * Real.cos awaRad)
    (some twDir, some twSpeed)
  | _, _, _, _ => (none, none)

/-- One collected sample, restricted to the fields read by averageSamples and
the completeness check of collectSignalkData. -/
structure RawSample where
  heading_deg : Option ℝ := none
  magnetic_variation_deg : Option ℝ := none
  true_heading_deg : Option ℝ := none
  awa : Option ℝ := none
  aws : Option ℝ := none
  sog_knots : Option ℝ := none
  water_temp : Option ℝ := none
  true_wind_dir : Option ℝ := none
  true_wind_speed : Option ℝ := none
  lat : Option ℝ := none
  lon : Option ℝ := none
  deriving Inhabited

/-- The averaged record produced by averageSamples. -/
structure AvgData where
  heading_deg : Option ℝ := none
  magnetic_variation_deg : Option ℝ := none
  true_heading_deg : Option ℝ := none
  awa : Option ℝ := none
  aws : Option ℝ := none
  sog_knots : Option ℝ := none
  water_temp : Option ℝ := none
  true_wind_dir : Option ℝ := none
  true_wind_speed : Option ℝ := none
  lat : Option ℝ := none
  lon : Option ℝ := none
  deriving Inhabited

/-- Arithmetic mean over the non-null values of a field, null when no sample
carries the field (the numeric-field pattern of averageSamples). -/
noncomputable def meanOpt (values : List ℝ) : Option ℝ :=
  if values.isEmpty then none else some (values.sum / values.length)

/-- Angle-field pattern of averageSamples: null when no sample carries the
field, otherwise averageAngles over the non-null values. -/
noncomputable def angleAvg (values : List ℝ) : Option ℝ :=
  if values.isEmpty then none else averageAngles (values.map some)

/-- signalkReader.js averageSamples: null on an empty or all-null input;
otherwise, per field, the mean (arithmetic for numeric fields, circular for
angle fields) over exactly the samples carrying that field, and the position
of the most recent valid sample taken verbatim. -/
noncomputable def averageSamples (samples : List (Option RawSample)) : Option AvgData :=
  if samples.isEmpty then none
  else
    let validSamples := samples.reduceOption
    if validSamples.isEmpty then none
    else some
      { sog_knots := meanOpt (validSamples.filterMap (fun s => s.sog_knots))
        water_temp := meanOpt (validSamples.filterMap (fun s => s.water_temp))
        aws := meanOpt (validSamples.filterMap (fun s => s.aws))
        heading_deg := angleAvg (validSamples.filterMap (fun s => s.heading_deg))
        magnetic_variation_deg :=
          angleAvg (validSamples.filterMap (fun s => s.magnetic_variation_deg))
        true_heading_deg := angleAvg (validSamples.filterMap (fun s => s.true_heading_deg))
        awa := angleAvg (validSamples.filterMap (fun s => s.awa))
        true_wind_dir := angleAvg (validSamples.filterMap (fun s => s.true_wind_dir))
        true_wind_speed := meanOpt (validSamples.filterMap (fun s => s.true_wind_speed))
        lat := (validSamples.getLast?.getD default).lat
        lon := (validSamples.getLast?.getD default).lon }

/-- The required-data completeness check of collectSignalkData: the named
missing-data entries for position, heading, wind and speed over ground.
Water temperature is deliberately not checked. -/
def missingRequired (avg : AvgData) : List String :=
  (if avg.lat.isNone || avg.lon.isNone then ["position (lat/lon)"] else []) ++
    (if avg.true_heading_deg.isNone then ["heading"] else []) ++
    (if avg.true_wind_dir.isNone || avg.true_wind_speed.isNone then
      ["wind (direction/speed)"] else []) ++
    (if avg.sog_knots.isNone then ["speed over ground"] else [])

/-- The pure aggregation core of collectSignalkData: average the samples,
then fail (null) when any required field is missing, succeed otherwise. -/
noncomputable def aggregateSamples (samples : List (Option RawSample)) : Option AvgData :=
  match averageSamples samples with
  | none => none
  | some avg => if 0 < (missingRequired avg).length then none else some avg

/-- Truthiness-preserving view of the decoder return: the bare false maps to
false, the record case to its isValid flag. -/
def retIsValid : DecodeRet → Bool
  | .earlyFalse => false
  | .ok v _ => v

/-- Analysis of the decoder return (default record for the bare-false case). -/
def retAnalysis : DecodeRet → Analysis
  | .earlyFalse => default
  | .ok _ a => a

/-- Modelled from the spec: the group order exactly as the section 4.5 table
lists it, with six omitted groups after the water-temperature group and then
ICE and the terminator. Written from the spec wording, for comparison with
the implemented group order. -/
def bbxxGroupsSpec (o : AveragedObservation) (stationId : String) : List String :=
  ["BBXX", stationId, dayHour o.day o.hour, latCode o.lat, lonCode o.lat o.lon,
    "43///", cloudWindGroup o.trueWindDir o.trueWindSpeed,
    "1////", "2////", "4////", "5////", "7////", "8////", "222//",
    tempCode o.waterTemp,
    "0////", "2////", "3////", "4////", "5////", "6////", "ICE", "/////="]

theorem round_mono_of_le {a b : ℚ} (h : a ≤ b) : round a ≤ round b := by
  rw [round_eq, round_eq]
  exact Int.floor_mono (by linarith)

theorem round_nonneg_of_nonneg {a : ℚ} (h : 0 ≤ a) : 0 ≤ round a := by
  rw [round_eq]
  rw [Int.le_floor]
  push_cast
  linarith

theorem round_le_of_le_natCast {a : ℚ} {m : ℕ} (h : a ≤ m) : round a ≤ m := by
  calc round a ≤ round ((m : ℚ)) := round_mono_of_le h
  _ = m := by exact_mod_cast round_natCast m

theorem intToString_of_nonneg {i : ℤ} (h : 0 ≤ i) :
    intToString i = natToString i.natAbs := by
  rw [intToString, if_neg (by omega)]

theorem intToString_length_le {i : ℤ} {k : ℕ} (h0 : 0 ≤ i) (hk : 0 < k)
    (hb : i < 10 ^ k) : (intToString i).length ≤ k := by
  rw [intToString_of_nonneg h0]
  refine natToString_length_le _ _ ?_ hk
  have : (i.natAbs : ℤ) = i := Int.natAbs_of_nonneg h0
  have hcast : ((10 : ℤ) ^ k) = ((10 ^ k : ℕ) : ℤ) := by push_cast; ring
  omega

theorem intToString_all_digits {i : ℤ} (h : 0 ≤ i) :
    ∀ c ∈ (intToString i).data, c.isDigit = true := by
  rw [intToString_of_nonneg h]
  exact natDigits_all_digits _

theorem padStart_length_eq (s : String) (w : ℕ) (c : Char) (h : s.length ≤ w) :
    (padStart s w c).length = w := by
  rw [padStart_length]
  omega

theorem padStart_all_digits (s : String) (w : ℕ)
    (h : ∀ c ∈ s.data, c.isDigit = true) :
    ∀ c ∈ (padStart s w '0').data, c.isDigit = true := by
  intro c hc
  rw [padStart_data] at hc
  rcases List.mem_append.mp hc with hm | hm
  · rw [List.eq_of_mem_replicate hm]; decide
  · exact h c hm

theorem parseIntJs_padStart_intToString {i : ℤ} (h : 0 ≤ i) (w : ℕ) :
    parseIntJs (padStart (intToString i) w '0') = some i := by
  rw [intToString_of_nonneg h, parseIntJs_padStart_natToString]
  congr 1
  exact Int.natAbs_of_nonneg h

theorem string_ne_of_digits_all {s t : String}
    (hs : ∀ c ∈ s.data, c.isDigit = true) (ht : '/' ∈ t.data) : s ≠ t := by
  intro h
  subst h
  exact absurd (hs '/' ht) (by decide)

theorem jsSplit_generateBbxxReport (dir spd : Option ℚ) (lat lon : ℚ)
    (day hour : ℕ) (stationId : String) (wt : Option ℚ)
    (hid : ' ' ∉ stationId.data) :
    jsSplit (generateBbxxReport dir spd lat lon day hour stationId wt) =
      ["BBXX", stationId, dayHour day hour, latCode lat, lonCode lat lon,
        "43///", cloudWindGroup dir spd,
        "1////", "2////", "4////", "5////", "7////", "8////", "222//",
        tempCode wt,
        "0////", "2////", "3////", "4////", "5////", "6////", "8////", "ICE",
        "/////="] := by
  refine jsSplit_joinSpace _ (by simp) ?_
  intro g hg
  simp only [List.mem_cons, List.not_mem_nil, or_false] at hg
  rcases hg with rfl | rfl | rfl | rfl | rfl | rfl | rfl | rfl | rfl | rfl | rfl | rfl
    | rfl | rfl | rfl | rfl | rfl | rfl | rfl | rfl | rfl | rfl | rfl | rfl
  · decide
  · exact hid
  · exact noSpace_dayHour day hour
  · exact noSpace_latCode lat
  · exact noSpace_lonCode lat lon
  · decide
  · exact noSpace_cloudWindGroup dir spd
  · decide
  · decide
  · decide
  · decide
  · decide
  · decide
  · decide
  · exact noSpace_tempCode wt
  · decide
  · decide
  · decide
  · decide
  · decide
  · decide
  · decide
  · decide
  · decide

theorem normalizeDeg_eq_self {x : ℝ} (h0 : 0 ≤ x) (h360 : x < 360) :
    normalizeDeg x = x := by
  have hfirst : jsFmod x 360 = x := by
    have htr : jsTrunc (x / 360) = 0 := by
      rw [jsTrunc, if_pos (by positivity)]
      rw [Int.floor_eq_zero_iff]
      constructor
      · positivity
      · rw [div_lt_one (by norm_num)]; simpa using h360
    rw [jsFmod, htr]
    push_cast
    ring
  have hsecond : jsFmod (x + 360) 360 = x := by
    have htr : jsTrunc ((x + 360) / 360) = 1 := by
      rw [jsTrunc, if_pos (by positivity)]
      rw [Int.floor_eq_iff]
      constructor
      · push_cast
        rw [le_div_iff (by norm_num : (0:ℝ) < 360)]
        linarith
      · push_cast
        rw [div_lt_iff (by norm_num : (0:ℝ) < 360)]
        linarith
    rw [jsFmod, htr]
    push_cast
    ring
  rw [normalizeDeg, hfirst, hsecond]

theorem jsAtan2_zero_of_nonneg {x : ℝ} (hx : 0 ≤ x) : jsAtan2 0 x = 0 := by
  rw [jsAtan2]
  have hmk : (⟨x, 0⟩ : ℂ) = (x : ℂ) := rfl
  rw [hmk]
  exact Complex.arg_ofReal_of_nonneg hx

/-- C9: for every raw water-temperature reading, the Kelvin heuristic of
collectSample subtracts 273.15 exactly when the reading exceeds 200,
otherwise passes the reading through unchanged, and keeps null null. -/
theorem C9_kelvinToCelsius_heuristic :
    kelvinToCelsius none = none ∧
    ∀ t : ℝ, (kelvinToCelsius (some t) = some (t - 273.15) ↔ 200 < t) ∧
      (kelvinToCelsius (some t) = some t ↔ ¬200 < t) := by
  refine ⟨rfl, fun t => ⟨⟨fun h => ?_, fun h => by simp [kelvinToCelsius, if_pos h]⟩,
    ⟨fun h => ?_, fun h => by simp [kelvinToCelsius, if_neg h]⟩⟩⟩
  · by_contra hc
    simp only [kelvinToCelsius, if_neg hc, Option.some.injEq] at h
    linarith
  · intro hc
    simp only [kelvinToCelsius, if_pos hc, Option.some.injEq] at h
    linarith

theorem averageAngles_guard_false (l : List (Option ℝ)) (h1 : l ≠ []) (h2 : none ∉ l) :
    (l.isEmpty || l.any Option.isNone) = false := by
  have he : l.isEmpty = false := by
    cases l
    · exact absurd rfl h1
    · rfl
  have ha : l.any Option.isNone = false := by
    rw [List.any_eq_false]
    intro x hx
    cases x
    · exact absurd hx h2
    · simp
  rw [he, ha]
  rfl

/-- C5: the circular averager returns null on an empty input or any null
element; on a non-empty null-free input it returns the atan2 of the mean
sine and mean cosine converted to degrees and normalized into the interval
from 0 to 360 by the double-remainder pattern; and averaging 359 and 1
degrees gives exactly 0, not 180. -/
theorem C5_averageAngles_circular :
    (∀ l : List (Option ℝ), l = [] ∨ none ∈ l → averageAngles l = none) ∧
    (∀ l : List (Option ℝ), l ≠ [] → none ∉ l →
      averageAngles l = some (normalizeDeg (jsAtan2
        (((l.reduceOption.map (fun a => a * Real.pi / 180)).map Real.sin).sum /
          (l.reduceOption.map (fun a => a * Real.pi / 180)).length)
        (((l.reduceOption.map (fun a => a * Real.pi / 180)).map Real.cos).sum /
          (l.reduceOption.map (fun a => a * Real.pi / 180)).length) * 180 / Real.pi))) ∧
    averageAngles [some 359, some 1] = some 0 := by
  refine ⟨fun l h => ?_, fun l h1 h2 => ?_, ?_⟩
  · rw [averageAngles, if_pos]
    rcases h with rfl | h
    · simp
    · simp only [Bool.or_eq_true, List.any_eq_true]
      exact Or.inr ⟨none, h, rfl⟩
  · rw [averageAngles, if_neg (by rw [averageAngles_guard_false l h1 h2]; simp)]
  · have h1 : ([some (359:ℝ), some 1] : List (Option ℝ)) ≠ [] := by simp
    have h2 : none ∉ ([some (359:ℝ), some 1] : List (Option ℝ)) := by simp
    rw [averageAngles, if_neg (by rw [averageAngles_guard_false _ h1 h2]; simp)]
    have hred : ([some (359:ℝ), some 1] : List (Option ℝ)).reduceOption = [359, 1] := by
      simp [List.reduceOption]
    rw [hred]
    have hpi := Real.pi_pos
    have h359 : (359:ℝ) * Real.pi / 180 = 2 * Real.pi - Real.pi / 180 := by ring
    have h1r : (1:ℝ) * Real.pi / 180 = Real.pi / 180 := by ring
    simp only [List.map_cons, List.map_nil, List.sum_cons, List.sum_nil, List.length_cons,
      List.length_nil, h359, h1r, Real.sin_two_pi_sub, Real.cos_two_pi_sub]
    have hsin : (-Real.sin (Real.pi / 180) + (Real.sin (Real.pi / 180) + 0)) / (0 + 1 + 1 : ℕ)
        = 0 := by
      push_cast
      ring
    have hcos : (Real.cos (Real.pi / 180) + (Real.cos (Real.pi / 180) + 0)) / (0 + 1 + 1 : ℕ)
        = Real.cos (Real.pi / 180) := by
      push_cast
      ring
    rw [hsin, hcos]
    have hcpos : 0 ≤ Real.cos (Real.pi / 180) := by
      refine le_of_lt (Real.cos_pos_of_mem_Ioo ⟨?_, ?_⟩)
      · linarith
      · linarith
    rw [jsAtan2_zero_of_nonneg hcpos]
    rw [zero_mul, zero_div]
    rw [normalizeDeg_eq_self le_rfl (by norm_num)]

/-- Witness for C5: the empty-or-null clause at a concrete null-containing
list and the formula clause at a concrete singleton. -/
theorem C5_averageAngles_circular_witness :
    averageAngles [(none : Option ℝ)] = none ∧
    averageAngles [some (10:ℝ)] = some (normalizeDeg (jsAtan2
      (((([some (10:ℝ)] : List (Option ℝ)).reduceOption.map
          (fun a => a * Real.pi / 180)).map Real.sin).sum /
        (([some (10:ℝ)] : List (Option ℝ)).reduceOption.map
          (fun a => a * Real.pi / 180)).length)
      (((([some (10:ℝ)] : List (Option ℝ)).reduceOption.map
          (fun a => a * Real.pi / 180)).map Real.cos).sum /
        (([some (10:ℝ)] : List (Option ℝ)).reduceOption.map
          (fun a => a * Real.pi / 180)).length) * 180 / Real.pi)) := by
  constructor
  · exact C5_averageAngles_circular.1 [none] (Or.inr (List.mem_singleton_self none))
  · exact C5_averageAngles_circular.2.1 [some 10] (by simp) (by simp)

/-- C6 counterexample: the claim asserts the direction equals the true
heading for every apparent wind angle once the apparent wind speed is zero;
at heading 0 (in range), apparent angle 90, speed over ground 5 (nonnegative)
the code returns direction 90, not the heading 0. -/
theorem C6_trueWind_counterexample :
    calculateTrueWind (some 90) (some 0) (some 0) (some 5) = (some 90, some 5) ∧
    (90 : ℝ) ≠ 0 ∧ (0:ℝ) ≤ 0 ∧ (0:ℝ) < 360 ∧ (0:ℝ) ≤ 5 := by
  refine ⟨?_, by norm_num, le_rfl, by norm_num, by norm_num⟩
  rw [calculateTrueWind]
  have hpi := Real.pi_ne_zero
  have hdir : ((0:ℝ) * Real.pi / 180 + 90 * Real.pi / 180) * 180 / Real.pi = 90 := by
    field_simp
  have hspd : Real.sqrt ((0:ℝ) * 0 + 5 * 5
      - 2 * 0 * 5 * Real.cos ((90:ℝ) * Real.pi / 180)) = 5 := by
    have h : (0:ℝ) * 0 + 5 * 5 - 2 * 0 * 5 * Real.cos ((90:ℝ) * Real.pi / 180)
        = 5 ^ 2 := by ring
    rw [h, Real.sqrt_sq (by norm_num : (0:ℝ) ≤ 5)]
  simp only [hdir, hspd]
  rw [normalizeDeg_eq_self (by norm_num) (by norm_num)]

/-- C6 amended: with apparent wind speed 0 the resolver returns speed equal
to sog for every apparent angle, heading and nonnegative sog; the direction
is the normalized sum of heading and apparent angle, hence equals the heading
exactly in the apparent-angle-zero case (heading in the interval 0 to 360). -/
theorem C6_trueWind_aws_zero (awa trueHeading sog : ℝ) (hsog : 0 ≤ sog)
    (hh0 : 0 ≤ trueHeading) (hh360 : trueHeading < 360) :
    (calculateTrueWind (some awa) (some 0) (some trueHeading) (some sog)).2 = some sog ∧
    calculateTrueWind (some 0) (some 0) (some trueHeading) (some sog)
      = (some trueHeading, some sog) := by
  have hsqrt : ∀ a : ℝ, Real.sqrt ((0:ℝ) * 0 + sog * sog - 2 * 0 * sog * Real.cos a)
      = sog := by
    intro a
    have h : (0:ℝ) * 0 + sog * sog - 2 * 0 * sog * Real.cos a = sog ^ 2 := by ring
    rw [h, Real.sqrt_sq hsog]
  have hpi := Real.pi_ne_zero
  constructor
  · rw [calculateTrueWind]
    simp only [hsqrt]
  · rw [calculateTrueWind]
    have hdir : (trueHeading * Real.pi / 180 + 0 * Real.pi / 180) * 180 / Real.pi
        = trueHeading := by
      field_simp
    simp only [hdir, hsqrt]
    rw [normalizeDeg_eq_self hh0 hh360]

/-- Witness for C6 amended at apparent angle 7, heading 10, sog 5. -/
theorem C6_trueWind_aws_zero_witness :
    (calculateTrueWind (some 7) (some 0) (some 10) (some 5)).2 = some 5 ∧
    calculateTrueWind (some 0) (some 0) (some 10) (some 5) = (some 10, some 5) :=
  C6_trueWind_aws_zero 7 10 5 (by norm_num) (by norm_num) (by norm_num)

/-- C10: for a 5-character wind group starting with a slash, the decoder
classifies the wind as omitted exactly when one of the two subfields is the
slash-slash sentinel, parses numeric values exactly when neither is, and in
particular classifies the mixed group slash-2-7-slash-slash as omitted. -/
theorem C10_windStep_omitted (p : String) (h5 : p.length = 5)
    (hs : jsStartsWith p "/" = true) :
    ((windStep p).2.1 = WindClass.omitted ↔
      (jsSubstring p 1 3 = "//" ∨ jsSubstring p 3 5 = "//")) ∧
    ((windStep p).2.1 = WindClass.parsed ↔
      ¬(jsSubstring p 1 3 = "//" ∨ jsSubstring p 3 5 = "//")) ∧
    (windStep "/27//").2.1 = WindClass.omitted := by
  have hcond : p.length = 5 ∧ jsStartsWith p "/" = true := ⟨h5, hs⟩
  refine ⟨?_, ?_, by decide⟩
  · simp only [windStep, if_pos hcond]
    by_cases hd : jsSubstring p 1 3 = "//" <;> by_cases hw : jsSubstring p 3 5 = "//" <;>
      simp [hd, hw]
  · simp only [windStep, if_pos hcond]
    by_cases hd : jsSubstring p 1 3 = "//" <;> by_cases hw : jsSubstring p 3 5 = "//" <;>
      simp [hd, hw]

/-- Witness for C10 at the parsed group slash-2-7-1-5. -/
theorem C10_windStep_omitted_witness :
    (("/2715" : String).length = 5 ∧ jsStartsWith "/2715" "/" = true) ∧
    ((windStep "/2715").2.1 = WindClass.omitted ↔
      (jsSubstring "/2715" 1 3 = "//" ∨ jsSubstring "/2715" 3 5 = "//")) ∧
    ((windStep "/2715").2.1 = WindClass.parsed ↔
      ¬(jsSubstring "/2715" 1 3 = "//" ∨ jsSubstring "/2715" 3 5 = "//")) ∧
    (windStep "/27//").2.1 = WindClass.omitted :=
  ⟨⟨by decide, by decide⟩, C10_windStep_omitted "/2715" (by decide) (by decide)⟩

theorem isNone_false_of_ne_none {α : Type} {x : Option α} (h : x ≠ none) :
    x.isNone = false := by
  cases x
  · exact absurd rfl h
  · rfl

theorem filterMap_ne_nil_of_exists {α β : Type} (l : List α) (f : α → Option β)
    (h : ∃ s ∈ l, f s ≠ none) : l.filterMap f ≠ [] := by
  rcases h with ⟨s, hs, hf⟩
  intro hcontra
  cases hfs : f s with
  | none => exact hf hfs
  | some b =>
    have hmem : b ∈ l.filterMap f := List.mem_filterMap.mpr ⟨s, hs, hfs⟩
    rw [hcontra] at hmem
    exact List.not_mem_nil b hmem

theorem meanOpt_isSome (values : List ℝ) (h : values ≠ []) :
    meanOpt values = some (values.sum / values.length) := by
  rw [meanOpt, if_neg]
  cases values
  · exact absurd rfl h
  · simp

theorem angleAvg_isSome (values : List ℝ) (h : values ≠ []) :
    ∃ x, angleAvg values = some x := by
  have hne : ¬ values.isEmpty = true := by
    cases values
    · exact absurd rfl h
    · simp
  rw [angleAvg, if_neg hne, averageAngles, if_neg]
  · exact ⟨_, rfl⟩
  · rw [averageAngles_guard_false]
    · simp
    · cases values
      · exact absurd rfl h
      · simp
    · intro hmem
      rcases List.mem_map.mp hmem with ⟨x, _, hx⟩
      exact Option.noConfusion hx

theorem missingRequired_eq_nil {avg : AvgData} (h1 : avg.lat ≠ none) (h2 : avg.lon ≠ none)
    (h3 : avg.true_heading_deg ≠ none) (h4 : avg.true_wind_dir ≠ none)
    (h5 : avg.true_wind_speed ≠ none) (h6 : avg.sog_knots ≠ none) :
    missingRequired avg = [] := by
  rw [missingRequired, isNone_false_of_ne_none h1, isNone_false_of_ne_none h2,
    isNone_false_of_ne_none h3, isNone_false_of_ne_none h4, isNone_false_of_ne_none h5,
    isNone_false_of_ne_none h6]
  simp

/-- C4: aggregation is per-field, not per-sample: each output field averages
exactly the subset of valid samples carrying that field; with every sample
missing water temperature but the required fields present somewhere,
aggregation succeeds and the result has null water temperature. -/
theorem C4_aggregate_per_field (samples : List (Option RawSample))
    (hv : samples.reduceOption ≠ [])
    (hlat : (samples.reduceOption.getLast?.getD default).lat ≠ none)
    (hlon : (samples.reduceOption.getLast?.getD default).lon ≠ none)
    (hhead : ∃ s ∈ samples.reduceOption, s.true_heading_deg ≠ none)
    (hdir : ∃ s ∈ samples.reduceOption, s.true_wind_dir ≠ none)
    (hspd : ∃ s ∈ samples.reduceOption, s.true_wind_speed ≠ none)
    (hsog : ∃ s ∈ samples.reduceOption, s.sog_knots ≠ none)
    (hwt : ∀ s ∈ samples.reduceOption, s.water_temp = none) :
    ∃ avg, aggregateSamples samples = some avg ∧
      avg.water_temp = none ∧
      avg.sog_knots = meanOpt (samples.reduceOption.filterMap (fun s => s.sog_knots)) ∧
      avg.aws = meanOpt (samples.reduceOption.filterMap (fun s => s.aws)) ∧
      avg.water_temp = meanOpt (samples.reduceOption.filterMap (fun s => s.water_temp)) ∧
      avg.true_heading_deg
        = angleAvg (samples.reduceOption.filterMap (fun s => s.true_heading_deg)) ∧
      avg.true_wind_dir
        = angleAvg (samples.reduceOption.filterMap (fun s => s.true_wind_dir)) ∧
      avg.true_wind_speed
        = meanOpt (samples.reduceOption.filterMap (fun s => s.true_wind_speed)) ∧
      avg.lat = (samples.reduceOption.getLast?.getD default).lat ∧
      avg.lon = (samples.reduceOption.getLast?.getD default).lon := by
  have hsne : ¬ samples.isEmpty = true := by
    cases samples with
    | nil => simp at hv
    | cons a t => simp
  have hvne : ¬ samples.reduceOption.isEmpty = true := by
    cases hr : samples.reduceOption with
    | nil => exact absurd hr hv
    | cons a t => simp
  have havg : averageSamples samples = some
      { heading_deg := angleAvg (samples.reduceOption.filterMap (fun s => s.heading_deg))
        magnetic_variation_deg :=
          angleAvg (samples.reduceOption.filterMap (fun s => s.magnetic_variation_deg))
        true_heading_deg :=
          angleAvg (samples.reduceOption.filterMap (fun s => s.true_heading_deg))
        awa := angleAvg (samples.reduceOption.filterMap (fun s => s.awa))
        aws := meanOpt (samples.reduceOption.filterMap (fun s => s.aws))
        sog_knots := meanOpt (samples.reduceOption.filterMap (fun s => s.sog_knots))
        water_temp := meanOpt (samples.reduceOption.filterMap (fun s => s.water_temp))
        true_wind_dir :=
          angleAvg (samples.reduceOption.filterMap (fun s => s.true_wind_dir))
        true_wind_speed :=
          meanOpt (samples.reduceOption.filterMap (fun s => s.true_wind_speed))
        lat := (samples.reduceOption.getLast?.getD default).lat
        lon := (samples.reduceOption.getLast?.getD default).lon } := by
    simp only [averageSamples]
    rw [if_neg hsne, if_neg hvne]
  have hwtnil : samples.reduceOption.filterMap (fun s => s.water_temp) = [] := by
    rw [List.filterMap_eq_nil]
    exact hwt
  have hheadSome := angleAvg_isSome _ (filterMap_ne_nil_of_exists _ _ hhead)
  have hdirSome := angleAvg_isSome _ (filterMap_ne_nil_of_exists _ _ hdir)
  have hspdSome := meanOpt_isSome _ (filterMap_ne_nil_of_exists _ _ hspd)
  have hsogSome := meanOpt_isSome _ (filterMap_ne_nil_of_exists _ _ hsog)
  refine ⟨{
      heading_deg := angleAvg (samples.reduceOption.filterMap (fun s => s.heading_deg)),
      magnetic_variation_deg :=
        angleAvg (samples.reduceOption.filterMap (fun s => s.magnetic_variation_deg)),
      true_heading_deg :=
        angleAvg (samples.reduceOption.filterMap (fun s => s.true_heading_deg)),
      awa := angleAvg (samples.reduceOption.filterMap (fun s => s.awa)),
      aws := meanOpt (samples.reduceOption.filterMap (fun s => s.aws)),
      sog_knots := meanOpt (samples.reduceOption.filterMap (fun s => s.sog_knots)),
      water_temp := meanOpt (samples.reduceOption.filterMap (fun s => s.water_temp)),
      true_wind_dir :=
        angleAvg (samples.reduceOption.filterMap (fun s => s.true_wind_dir)),
      true_wind_speed :=
        meanOpt (samples.reduceOption.filterMap (fun s => s.true_wind_speed)),
      lat := (samples.reduceOption.getLast?.getD default).lat,
      lon := (samples.reduceOption.getLast?.getD default).lon },
    ?_, ?_, rfl, rfl, rfl, rfl, rfl, rfl, rfl, rfl⟩
  · simp only [aggregateSamples, havg]
    rw [if_neg]
    rw [missingRequired_eq_nil]
    · simp
    · exact hlat
    · exact hlon
    · rcases hheadSome with ⟨x, hx⟩
      simp only [hx]
      exact Option.noConfusion
    · rcases hdirSome with ⟨x, hx⟩
      simp only [hx]
      exact Option.noConfusion
    · simp only [hspdSome]
      exact Option.noConfusion
    · simp only [hsogSome]
      exact Option.noConfusion
  · show meanOpt (samples.reduceOption.filterMap (fun s => s.water_temp)) = none
    rw [hwtnil]
    rfl

/-- Witness for C4 with one sample carrying everything except water
temperature. -/
theorem C4_aggregate_per_field_witness :
    ∃ avg, aggregateSamples [some ({
        true_heading_deg := some 10, true_wind_dir := some 20,
        true_wind_speed := some 5, sog_knots := some 4, lat := some 1, lon := some 2 } :
        RawSample)] = some avg ∧ avg.water_temp = none := by
  obtain ⟨avg, h1, h2, _⟩ := C4_aggregate_per_field
    [some ({
      true_heading_deg := some 10, true_wind_dir := some 20,
      true_wind_speed := some 5, sog_knots := some 4, lat := some 1, lon := some 2 } :
      RawSample)]
    (by simp) (by simp) (by simp)
    (by simp) (by simp) (by simp) (by simp)
    (by intro s hs; simp at hs; subst hs; rfl)
  exact ⟨avg, h1, h2⟩

/-- C7 counterexample: on an input with fewer than 15 space-separated groups
the decoder returns the bare boolean false (with a console error), not a
structured verdict record, so not every malformed input is reported through
the record. -/
theorem C7_decode_counterexample :
    validateAndDecodeBbxx "BBXX A" = (DecodeRet.earlyFalse,
      [⟨Severity.error, "Invalid BBXX format - insufficient parts"⟩]) ∧
    ∀ v a, DecodeRet.earlyFalse ≠ DecodeRet.ok v a := by
  constructor
  · decide
  · intro v a h
    exact DecodeRet.noConfusion h

/-- C7 amended: the decoder is a total function that never raises; on at
least 15 groups it returns the isValid-plus-analysis record with issues
modelled from its console lines, and on fewer than 15 groups it returns the
bare false with a single console error instead of a record. -/
theorem C7_decode_total_shape (msg : String) :
    ((jsSplit msg).length < 15 →
      validateAndDecodeBbxx msg = (DecodeRet.earlyFalse,
        [⟨Severity.error, "Invalid BBXX format - insufficient parts"⟩])) ∧
    (¬(jsSplit msg).length < 15 →
      ∃ v a, (validateAndDecodeBbxx msg).1 = DecodeRet.ok v a) := by
  constructor
  · intro h
    simp only [validateAndDecodeBbxx]
    rw [if_pos h]
  · intro h
    simp only [validateAndDecodeBbxx]
    rw [if_neg h]
    exact ⟨_, _, rfl⟩

/-- Witness for C7 amended at a short input and at the full test message of
validate_bbxx.js. -/
theorem C7_decode_total_shape_witness :
    validateAndDecodeBbxx "BBXX" = (DecodeRet.earlyFalse,
      [⟨Severity.error, "Invalid BBXX format - insufficient parts"⟩]) ∧
    ∃ v a, (validateAndDecodeBbxx
      "BBXX 9RM2K7C 28154 99112 70742 43/// /0112 1//// 2//// 4//// 5//// 7//// 8//// 222// 04275 0//// 2//// 3//// 4//// 5//// 6//// 8//// ICE /////=").1
      = DecodeRet.ok v a :=
  ⟨(C7_decode_total_shape "BBXX").1 (by decide),
    (C7_decode_total_shape
      "BBXX 9RM2K7C 28154 99112 70742 43/// /0112 1//// 2//// 4//// 5//// 7//// 8//// 222// 04275 0//// 2//// 3//// 4//// 5//// 6//// 8//// ICE /////=").2
      (by decide)⟩

theorem jsLt_false {α : Type} [LinearOrder α] {x b : α} (h : ¬ x < b) :
    jsLt (some x) b = false := by simp [jsLt, h]

theorem jsGt_false {α : Type} [LinearOrder α] {x b : α} (h : ¬ b < x) :
    jsGt (some x) b = false := by simp [jsGt, h]

theorem jsGe_false {α : Type} [LinearOrder α] {x b : α} (h : ¬ b ≤ x) :
    jsGe (some x) b = false := by simp [jsGe, h]

theorem padStart_data_length (s : String) (w : ℕ) (c : Char) (h : s.length ≤ w) :
    (padStart s w c).data.length = w := by
  have := padStart_length_eq s w c h
  rw [show (padStart s w c).data.length = (padStart s w c).length from rfl, this]

theorem dayHour_data (d h : ℕ) :
    (dayHour d h).data = ((padStart (natToString d) 2 '0').data
      ++ (padStart (natToString h) 2 '0').data) ++ ['4'] := by
  rw [dayHour, String.data_append, String.data_append]

theorem dayHour_all_digits (d h : ℕ) : ∀ c ∈ (dayHour d h).data, c.isDigit = true := by
  rw [dayHour_data]
  intro c hc
  rcases List.mem_append.mp hc with hm | hm
  · rcases List.mem_append.mp hm with hm2 | hm2
    · exact padStart_all_digits _ _ (natDigits_all_digits d) c hm2
    · exact padStart_all_digits _ _ (natDigits_all_digits h) c hm2
  · rw [List.mem_singleton.mp hm]; decide

theorem dayHour_length (d h : ℕ) (hd : d < 100) (hh : h < 100) :
    (dayHour d h).length = 5 := by
  show (dayHour d h).data.length = 5
  rw [dayHour_data]
  simp only [List.length_append, List.length_singleton]
  rw [padStart_data_length _ _ _ (natToString_length_le d 2 (by omega) (by omega)),
    padStart_data_length _ _ _ (natToString_length_le h 2 (by omega) (by omega))]

theorem dayHourStep_eval (d h : ℕ) (hd1 : 1 ≤ d) (hd2 : d ≤ 31) (hh : h ≤ 23) :
    dayHourStep (dayHour d h) = ((some (d : ℤ), some (h : ℤ), some 4), true, []) := by
  have hlA : (padStart (natToString d) 2 '0').data.length = 2 :=
    padStart_data_length _ _ _ (natToString_length_le d 2 (by omega) (by omega))
  have hlB : (padStart (natToString h) 2 '0').data.length = 2 :=
    padStart_data_length _ _ _ (natToString_length_le h 2 (by omega) (by omega))
  have hsub1 : jsSubstring (dayHour d h) 0 2 = padStart (natToString d) 2 '0' := by
    apply String.ext
    show ((dayHour d h).data.drop 0).take 2 = _
    rw [dayHour_data, List.drop_zero, List.append_assoc]
    exact List.take_left' hlA
  have hsub2 : jsSubstring (dayHour d h) 2 4 = padStart (natToString h) 2 '0' := by
    apply String.ext
    show ((dayHour d h).data.drop 2).take 2 = _
    rw [dayHour_data, List.append_assoc, List.drop_left' hlA]
    exact List.take_left' hlB
  have hsub3 : jsSubstring (dayHour d h) 4 5 = "4" := by
    apply String.ext
    show ((dayHour d h).data.drop 4).take 1 = _
    rw [dayHour_data, List.drop_left' (by rw [List.length_append, hlA, hlB])]
    rfl
  rw [dayHourStep, if_pos (dayHour_length d h (by omega) (by omega)), hsub1, hsub2, hsub3,
    parseIntJs_padStart_natToString, parseIntJs_padStart_natToString,
    show parseIntJs "4" = some 4 from by decide]
  dsimp only
  rw [jsLt_false (by exact_mod_cast not_lt.mpr (by exact_mod_cast hd1)),
    jsGt_false (by exact_mod_cast not_lt.mpr (by exact_mod_cast hd2)),
    jsLt_false (by exact_mod_cast not_lt.mpr (by exact_mod_cast Nat.zero_le h)),
    jsGt_false (by exact_mod_cast not_lt.mpr (by exact_mod_cast hh))]
  rfl

theorem latCode_data (lat : ℚ) :
    (latCode lat).data
      = '9' :: '9' :: (padStart (intToString (round (|lat| * 10))) 3 '0').data := by
  rw [latCode, String.data_append]
  rfl

theorem latCode_all_digits (lat : ℚ) : ∀ c ∈ (latCode lat).data, c.isDigit = true := by
  rw [latCode_data]
  intro c hc
  rcases hc with _ | ⟨_, hc⟩
  · decide
  · rcases hc with _ | ⟨_, hc⟩
    · decide
    · exact padStart_all_digits _ _
        (intToString_all_digits (round_nonneg_of_nonneg (by positivity))) c hc

theorem latStep_eval (lat : ℚ) (h1 : -90 ≤ lat) (h2 : lat ≤ 90) :
    latStep (latCode lat) = (some (((round (|lat| * 10) : ℤ) : ℚ) / 10), true, []) := by
  have habs : |lat| * 10 ≤ (900 : ℕ) := by
    have : |lat| ≤ 90 := abs_le.mpr ⟨h1, h2⟩
    push_cast
    linarith
  have hr0 : (0 : ℤ) ≤ round (|lat| * 10) := round_nonneg_of_nonneg (by positivity)
  have hr900 : round (|lat| * 10) ≤ 900 := round_le_of_le_natCast habs
  have hlen3 : (padStart (intToString (round (|lat| * 10))) 3 '0').data.length = 3 :=
    padStart_data_length _ _ _ (intToString_length_le hr0 (by norm_num) (by
      have : (10:ℤ) ^ 3 = 1000 := by norm_num
      omega))
  have hlen : (latCode lat).length = 5 := by
    show (latCode lat).data.length = 5
    rw [latCode_data]
    simp [hlen3]
  have hsw : jsStartsWith (latCode lat) "99" = true := by
    rw [jsStartsWith, latCode_data]
    simp [List.isPrefixOf]
  have hsub : jsSubstringFrom (latCode lat) 2
      = padStart (intToString (round (|lat| * 10))) 3 '0' := by
    apply String.ext
    show (latCode lat).data.drop 2 = _
    rw [latCode_data]
    rfl
  rw [latStep, if_pos ⟨hlen, hsw⟩, hsub, parseIntJs_padStart_intToString hr0]
  dsimp only
  rw [Option.map_some']
  rw [jsLt_false (not_lt.mpr (by positivity)),
    jsGt_false (not_lt.mpr (by
      rw [div_le_iff (by norm_num : (0:ℚ) < 10)]
      exact_mod_cast hr900))]
  rfl

theorem getBbxxQuadrant_lt_ten (lat lon : ℚ) : getBbxxQuadrant lat lon < 10 := by
  rw [getBbxxQuadrant]
  split
  · omega
  split
  · omega
  split
  · omega
  split
  · omega
  · omega

theorem getBbxxQuadrant_exhaustive (lat lon : ℚ) (h1 : ¬(0 ≤ lat ∧ 0 ≤ lon))
    (h2 : ¬(lat < 0 ∧ 0 ≤ lon)) (h3 : ¬(lat < 0 ∧ lon < 0))
    (h4 : ¬(0 ≤ lat ∧ lon < 0)) : False := by
  rcases le_or_lt 0 lat with ha | ha <;> rcases le_or_lt 0 lon with hb | hb
  · exact h1 ⟨ha, hb⟩
  · exact h4 ⟨ha, hb⟩
  · exact h2 ⟨ha, hb⟩
  · exact h3 ⟨ha, hb⟩

theorem getBbxxQuadrant_mem (lat lon : ℚ) :
    getBbxxQuadrant lat lon = 1 ∨ getBbxxQuadrant lat lon = 3 ∨
      getBbxxQuadrant lat lon = 5 ∨ getBbxxQuadrant lat lon = 7 := by
  rw [getBbxxQuadrant]
  split_ifs with h1 h2 h3 h4
  · exact Or.inl rfl
  · exact Or.inr (Or.inl rfl)
  · exact Or.inr (Or.inr (Or.inl rfl))
  · exact Or.inr (Or.inr (Or.inr rfl))
  · exact absurd (getBbxxQuadrant_exhaustive lat lon h1 h2 h3 h4) not_false

theorem getBbxxQuadrant_neg_iff (lat lon : ℚ) :
    (getBbxxQuadrant lat lon = 5 ∨ getBbxxQuadrant lat lon = 7) ↔ lon < 0 := by
  rw [getBbxxQuadrant]
  split_ifs with h1 h2 h3 h4
  · exact ⟨fun h => by rcases h with h | h <;> omega,
      fun h => absurd h (not_lt.mpr h1.2)⟩
  · exact ⟨fun h => by rcases h with h | h <;> omega,
      fun h => absurd h (not_lt.mpr h2.2)⟩
  · exact ⟨fun _ => h3.2, fun _ => Or.inl rfl⟩
  · exact ⟨fun _ => h4.2, fun _ => Or.inr rfl⟩
  · exact absurd (getBbxxQuadrant_exhaustive lat lon h1 h2 h3 h4) not_false

theorem getBbxxQuadrant_south_iff (lat lon : ℚ) :
    (getBbxxQuadrant lat lon = 3 ∨ getBbxxQuadrant lat lon = 5) ↔ lat < 0 := by
  rw [getBbxxQuadrant]
  split_ifs with h1 h2 h3 h4
  · exact ⟨fun h => by rcases h with h | h <;> omega,
      fun h => absurd h (not_lt.mpr h1.1)⟩
  · exact ⟨fun _ => h2.1, fun _ => Or.inl rfl⟩
  · exact ⟨fun _ => h3.1, fun _ => Or.inr rfl⟩
  · exact ⟨fun h => by rcases h with h | h <;> omega,
      fun h => absurd h (not_lt.mpr h4.1)⟩
  · exact absurd (getBbxxQuadrant_exhaustive lat lon h1 h2 h3 h4) not_false

theorem natToString_lt_ten (q : ℕ) (h : q < 10) : natToString q = ⟨[digitChar q]⟩ := by
  rw [natToString, natDigits, dif_pos h]

theorem parseIntJs_single_digit (q : ℕ) (h : q < 10) :
    parseIntJs ⟨[digitChar q]⟩ = some (q : ℤ) := by
  rw [parseIntJs_digits [digitChar q] (by simp)
    (by intro c hc; rw [List.mem_singleton.mp hc]; exact digitChar_isDigit q h)]
  congr 1
  simp only [digitsVal, List.foldl_cons, List.foldl_nil, digitChar_toNat q h]
  omega

theorem lonCode_data (lat lon : ℚ) :
    (lonCode lat lon).data = digitChar (getBbxxQuadrant lat lon)
      :: (padStart (intToString (round (|lon| * 10))) 4 '0').data := by
  rw [lonCode, String.data_append, natToString_lt_ten _ (getBbxxQuadrant_lt_ten lat lon)]
  rfl

theorem lonCode_all_digits (lat lon : ℚ) :
    ∀ c ∈ (lonCode lat lon).data, c.isDigit = true := by
  rw [lonCode_data]
  intro c hc
  rcases hc with _ | ⟨_, hc⟩
  · exact digitChar_isDigit _ (getBbxxQuadrant_lt_ten lat lon)
  · exact padStart_all_digits _ _
      (intToString_all_digits (round_nonneg_of_nonneg (by positivity))) c hc

theorem lonStep_eval (lat lon : ℚ) (h1 : -180 ≤ lon) (h2 : lon ≤ 180) :
    lonStep (lonCode lat lon) = ((some ((getBbxxQuadrant lat lon : ℕ) : ℤ),
      some (round (|lon| * 10)), some (((round (|lon| * 10) : ℤ) : ℚ) / 10),
      some (if lon < 0 then -(((round (|lon| * 10) : ℤ) : ℚ) / 10)
        else ((round (|lon| * 10) : ℤ) : ℚ) / 10)), true, []) := by
  have habs : |lon| * 10 ≤ (1800 : ℕ) := by
    have : |lon| ≤ 180 := abs_le.mpr ⟨h1, h2⟩
    push_cast
    linarith
  have hm0 : (0 : ℤ) ≤ round (|lon| * 10) := round_nonneg_of_nonneg (by positivity)
  have hm1800 : round (|lon| * 10) ≤ 1800 := round_le_of_le_natCast habs
  have hlen4 : (padStart (intToString (round (|lon| * 10))) 4 '0').data.length = 4 :=
    padStart_data_length _ _ _ (intToString_length_le hm0 (by norm_num) (by
      have : (10:ℤ) ^ 4 = 10000 := by norm_num
      omega))
  have hlen : (lonCode lat lon).length = 5 := by
    show (lonCode lat lon).data.length = 5
    rw [lonCode_data]
    simp [hlen4]
  have hsub1 : jsSubstring (lonCode lat lon) 0 1
      = ⟨[digitChar (getBbxxQuadrant lat lon)]⟩ := by
    apply String.ext
    show ((lonCode lat lon).data.drop 0).take 1 = _
    rw [lonCode_data]
    rfl
  have hsub2 : jsSubstringFrom (lonCode lat lon) 1
      = padStart (intToString (round (|lon| * 10))) 4 '0' := by
    apply String.ext
    show (lonCode lat lon).data.drop 1 = _
    rw [lonCode_data]
    rfl
  rw [lonStep, if_pos hlen, hsub1, hsub2,
    parseIntJs_single_digit _ (getBbxxQuadrant_lt_ten lat lon),
    parseIntJs_padStart_intToString hm0]
  dsimp only
  rw [Option.map_some']
  have hmem : ((getBbxxQuadrant lat lon : ℕ) : ℤ) = 1 ∨
      ((getBbxxQuadrant lat lon : ℕ) : ℤ) = 3 ∨
      ((getBbxxQuadrant lat lon : ℕ) : ℤ) = 5 ∨
      ((getBbxxQuadrant lat lon : ℕ) : ℤ) = 7 := by
    rcases getBbxxQuadrant_mem lat lon with h | h | h | h <;> rw [h] <;> norm_num
  have hnegiff : (some ((getBbxxQuadrant lat lon : ℕ) : ℤ) = some 5 ∨
      some ((getBbxxQuadrant lat lon : ℕ) : ℤ) = some 7) ↔ lon < 0 := by
    rw [← getBbxxQuadrant_neg_iff lat lon]
    constructor
    · rintro (h | h)
      · exact Or.inl (by exact_mod_cast Option.some.inj h)
      · exact Or.inr (by exact_mod_cast Option.some.inj h)
    · rintro (h | h)
      · exact Or.inl (by rw [h]; norm_num)
      · exact Or.inr (by rw [h]; norm_num)
  have hbadq : (¬(some ((getBbxxQuadrant lat lon : ℕ) : ℤ) = some 1 ∨
      some ((getBbxxQuadrant lat lon : ℕ) : ℤ) = some 3 ∨
      some ((getBbxxQuadrant lat lon : ℕ) : ℤ) = some 5 ∨
      some ((getBbxxQuadrant lat lon : ℕ) : ℤ) = some 7)) = False := by
    simp only [eq_iff_iff, iff_false, not_not]
    rcases hmem with h | h | h | h <;> rw [h] <;> simp
  have habs_le : ∀ v : ℚ, v = ((round (|lon| * 10) : ℤ) : ℚ) / 10 ∨
      v = -(((round (|lon| * 10) : ℤ) : ℚ) / 10) → ¬ (180 : ℚ) < |v| := by
    intro v hv
    have hb : |v| = ((round (|lon| * 10) : ℤ) : ℚ) / 10 := by
      rcases hv with rfl | rfl
      · rw [abs_of_nonneg (by positivity)]
      · rw [abs_neg, abs_of_nonneg (by positivity)]
    rw [hb, not_lt, div_le_iff (by norm_num : (0:ℚ) < 10)]
    exact_mod_cast hm1800
  by_cases hneg : lon < 0
  · rw [if_pos (hnegiff.mpr hneg), if_pos hneg]
    simp only [Option.map_some']
    have hbq : (decide (¬(some ((getBbxxQuadrant lat lon : ℕ) : ℤ) = some 1 ∨
        some ((getBbxxQuadrant lat lon : ℕ) : ℤ) = some 3 ∨
        some ((getBbxxQuadrant lat lon : ℕ) : ℤ) = some 5 ∨
        some ((getBbxxQuadrant lat lon : ℕ) : ℤ) = some 7))) = false := by
      simp only [decide_eq_false_iff_not, hbadq]
      exact not_false
    simp only [jsGt_false (habs_le _ (Or.inr rfl)), hbq]
    rfl
  · rw [if_neg (fun h => hneg (hnegiff.mp h)), if_neg hneg]
    simp only [Option.map_some']
    have hbq : (decide (¬(some ((getBbxxQuadrant lat lon : ℕ) : ℤ) = some 1 ∨
        some ((getBbxxQuadrant lat lon : ℕ) : ℤ) = some 3 ∨
        some ((getBbxxQuadrant lat lon : ℕ) : ℤ) = some 5 ∨
        some ((getBbxxQuadrant lat lon : ℕ) : ℤ) = some 7))) = false := by
      simp only [decide_eq_false_iff_not, hbadq]
      exact not_false
    simp only [jsGt_false (habs_le _ (Or.inl rfl)), hbq]
    rfl

theorem round_lt_of_round_le {s : ℚ} (h : round s ≤ 99) : s < 100 := by
  have hfl : s + 1/2 - 1 < (round s : ℚ) := by
    rw [round_eq]
    exact_mod_cast Int.sub_one_lt_floor (s + 1/2)
  have : (round s : ℚ) ≤ 99 := by exact_mod_cast h
  linarith

theorem cloudWindGroup_data (d s : ℚ) (hs : s < 100) :
    (cloudWindGroup (some d) (some s)).data
      = '/' :: ((padStart (intToString (round (d / 10))) 2 '0').data
        ++ (padStart (intToString (round s)) 2 '0').data) := by
  show ("/" ++ padStart (intToString (round (d / 10))) 2 '0' ++
    (if s < 100 then padStart (intToString (round s)) 2 '0' else "//")).data = _
  rw [if_pos hs, String.data_append, String.data_append]
  rfl

theorem windStep_eval (d s : ℚ) (hd0 : 0 ≤ d) (hd360 : d < 360) (hs0 : 0 ≤ s)
    (hs99 : round s ≤ 99) :
    windStep (cloudWindGroup (some d) (some s)) =
      ((some (round (d / 10) * 10), some (round s)), WindClass.parsed, true, []) := by
  have hs100 : s < 100 := round_lt_of_round_le hs99
  have hrA0 : (0 : ℤ) ≤ round (d / 10) := round_nonneg_of_nonneg (by positivity)
  have hrA36 : round (d / 10) ≤ 36 := by
    refine round_le_of_le_natCast ?_
    push_cast
    linarith
  have hrB0 : (0 : ℤ) ≤ round s := round_nonneg_of_nonneg hs0
  have hlA : (padStart (intToString (round (d / 10))) 2 '0').data.length = 2 :=
    padStart_data_length _ _ _ (intToString_length_le hrA0 (by norm_num) (by
      have : (10:ℤ) ^ 2 = 100 := by norm_num
      omega))
  have hlB : (padStart (intToString (round s)) 2 '0').data.length = 2 :=
    padStart_data_length _ _ _ (intToString_length_le hrB0 (by norm_num) (by
      have : (10:ℤ) ^ 2 = 100 := by norm_num
      omega))
  have hlen : (cloudWindGroup (some d) (some s)).length = 5 := by
    show (cloudWindGroup (some d) (some s)).data.length = 5
    rw [cloudWindGroup_data d s hs100]
    simp [hlA, hlB]
  have hsw : jsStartsWith (cloudWindGroup (some d) (some s)) "/" = true := by
    rw [jsStartsWith, cloudWindGroup_data d s hs100]
    simp [List.isPrefixOf]
  have hsub1 : jsSubstring (cloudWindGroup (some d) (some s)) 1 3
      = padStart (intToString (round (d / 10))) 2 '0' := by
    apply String.ext
    show ((cloudWindGroup (some d) (some s)).data.drop 1).take 2 = _
    rw [cloudWindGroup_data d s hs100, List.drop_one, List.tail_cons]
    exact List.take_left' hlA
  have hsub2 : jsSubstring (cloudWindGroup (some d) (some s)) 3 5
      = padStart (intToString (round s)) 2 '0' := by
    apply String.ext
    show ((cloudWindGroup (some d) (some s)).data.drop 3).take 2 = _
    rw [cloudWindGroup_data d s hs100,
      show (3 : ℕ) = 1 + 2 from rfl, ← List.drop_drop, List.drop_one, List.tail_cons,
      List.drop_left' hlA]
    have htl := List.take_length ((padStart (intToString (round s)) 2 '0').data)
    rw [hlB] at htl
    exact htl
  have hne1 : padStart (intToString (round (d / 10))) 2 '0' ≠ "//" :=
    string_ne_of_digits_all
      (padStart_all_digits _ _ (intToString_all_digits hrA0)) (by decide)
  have hne2 : padStart (intToString (round s)) 2 '0' ≠ "//" :=
    string_ne_of_digits_all
      (padStart_all_digits _ _ (intToString_all_digits hrB0)) (by decide)
  rw [windStep, if_pos ⟨hlen, hsw⟩, hsub1, hsub2, if_pos ⟨hne1, hne2⟩,
    parseIntJs_padStart_intToString hrA0, parseIntJs_padStart_intToString hrB0]
  dsimp only
  rw [Option.map_some']
  rw [jsLt_false (not_lt.mpr (by positivity)),
    jsGt_false (not_lt.mpr (by nlinarith)),
    jsLt_false (not_lt.mpr hrB0),
    jsGe_false (not_le.mpr (by omega))]
  rfl

theorem windStep_sentinel :
    windStep "/////" = ((none, none), WindClass.omitted, true, []) := by decide

theorem tempStep_none_eval : tempStep "0////" = (none, true,
    [⟨Severity.warning, "Water temperature unusual sign indicator"⟩]) := by decide

theorem tempCode_data (t : ℚ) :
    (tempCode (some t)).data = '0' :: (if 0 ≤ t then '4' else '5')
      :: (padStart (intToString (round (|t| * 10))) 3 '0').data := by
  show ("0" ++ (if 0 ≤ t then "4" else "5")
    ++ padStart (intToString (round (|t| * 10))) 3 '0').data = _
  by_cases h0 : 0 ≤ t
  · rw [if_pos h0, if_pos h0, String.data_append, String.data_append]
    rfl
  · rw [if_neg h0, if_neg h0, String.data_append, String.data_append]
    rfl

theorem tempStep_some_eval (t : ℚ) (hb : round (|t| * 10) ≤ 999) :
    ∃ iss, tempStep (tempCode (some t)) =
      (some (if 0 ≤ t then ((round (|t| * 10) : ℤ) : ℚ) / 10
        else -(((round (|t| * 10) : ℤ) : ℚ) / 10)), true, iss) ∧
      ∀ i ∈ iss, i.sev = Severity.warning := by
  have hr0 : (0 : ℤ) ≤ round (|t| * 10) := round_nonneg_of_nonneg (by positivity)
  have hlen3 : (padStart (intToString (round (|t| * 10))) 3 '0').data.length = 3 :=
    padStart_data_length _ _ _ (intToString_length_le hr0 (by norm_num) (by
      have : (10:ℤ) ^ 3 = 1000 := by norm_num
      omega))
  have hlen : (tempCode (some t)).length = 5 := by
    show (tempCode (some t)).data.length = 5
    rw [tempCode_data]
    simp [hlen3]
  have hsw : jsStartsWith (tempCode (some t)) "0" = true := by
    rw [jsStartsWith, tempCode_data]
    simp [List.isPrefixOf]
  have hsub1 : jsSubstring (tempCode (some t)) 1 2
      = ⟨[if 0 ≤ t then '4' else '5']⟩ := by
    apply String.ext
    show ((tempCode (some t)).data.drop 1).take 1 = _
    rw [tempCode_data]
    rfl
  have hsub2 : jsSubstring (tempCode (some t)) 2 5
      = padStart (intToString (round (|t| * 10))) 3 '0' := by
    apply String.ext
    show ((tempCode (some t)).data.drop 2).take 3 = _
    rw [tempCode_data]
    show List.take 3 (padStart (intToString (round (|t| * 10))) 3 '0').data = _
    have htl := List.take_length ((padStart (intToString (round (|t| * 10))) 3 '0').data)
    rw [hlen3] at htl
    exact htl
  by_cases h0 : 0 ≤ t
  · have heval : tempStep (tempCode (some t)) =
        (some (((round (|t| * 10) : ℤ) : ℚ) / 10), true,
          if (jsLt (some (((round (|t| * 10) : ℤ) : ℚ) / 10)) (-5) ||
              jsGt (some (((round (|t| * 10) : ℤ) : ℚ) / 10)) 40) = true then
            [⟨Severity.warning, "Water temperature outside typical range"⟩] else []) := by
      rw [tempStep, if_pos ⟨hlen, hsw⟩, hsub1, if_pos h0,
        if_pos (show (⟨['4']⟩ : String) = "4" ∨ (⟨['4']⟩ : String) = "5" from Or.inl rfl),
        hsub2, parseIntJs_padStart_intToString hr0]
      dsimp only
      rw [Option.map_some', if_pos (show (⟨['4']⟩ : String) = "4" from rfl)]
    have hval : (if 0 ≤ t then ((round (|t| * 10) : ℤ) : ℚ) / 10
        else -(((round (|t| * 10) : ℤ) : ℚ) / 10)) = ((round (|t| * 10) : ℤ) : ℚ) / 10 :=
      if_pos h0
    refine ⟨_, by rw [hval]; exact heval, ?_⟩
    intro i hi
    split at hi
    · rw [List.mem_singleton.mp hi]
    · exact absurd hi (List.not_mem_nil i)
  · have heval : tempStep (tempCode (some t)) =
        (some (-(((round (|t| * 10) : ℤ) : ℚ) / 10)), true,
          if (jsLt (some (-(((round (|t| * 10) : ℤ) : ℚ) / 10))) (-5) ||
              jsGt (some (-(((round (|t| * 10) : ℤ) : ℚ) / 10))) 40) = true then
            [⟨Severity.warning, "Water temperature outside typical range"⟩] else []) := by
      rw [tempStep, if_pos ⟨hlen, hsw⟩, hsub1, if_neg h0,
        if_pos (show (⟨['5']⟩ : String) = "4" ∨ (⟨['5']⟩ : String) = "5" from Or.inr rfl),
        hsub2, parseIntJs_padStart_intToString hr0]
      dsimp only
      rw [Option.map_some', if_neg (show ¬(⟨['5']⟩ : String) = "4" from by decide),
        Option.map_some']
    have hval : (if 0 ≤ t then ((round (|t| * 10) : ℤ) : ℚ) / 10
        else -(((round (|t| * 10) : ℤ) : ℚ) / 10)) = -(((round (|t| * 10) : ℤ) : ℚ) / 10) :=
      if_neg h0
    refine ⟨_, by rw [hval]; exact heval, ?_⟩
    intro i hi
    split at hi
    · rw [List.mem_singleton.mp hi]
    · exact absurd hi (List.not_mem_nil i)

theorem cloudWindGroup_head (dir spd : Option ℚ) :
    (cloudWindGroup dir spd).data.head? = some '/' := by
  cases dir with
  | none => cases spd with
    | none => rfl
    | some s => rfl
  | some d =>
    cases spd with
    | none => rfl
    | some s =>
      show (("/" ++ padStart (intToString (round (d / 10))) 2 '0' ++
        (if s < 100 then padStart (intToString (round s)) 2 '0' else "//")).data.head?) = _
      rw [String.data_append, String.data_append]
      rfl

theorem cloudWindGroup_ne_marker (dir spd : Option ℚ) : cloudWindGroup dir spd ≠ "222//" := by
  intro h
  have hh := cloudWindGroup_head dir spd
  rw [h] at hh
  exact absurd (Option.some.inj hh) (by decide)

theorem jsEndsWith_of_getLast (s : String) (h : s.data.getLast? = some '=') :
    jsEndsWith s "=" = true := by
  rw [jsEndsWith]
  have hrev : s.data.reverse.head? = some '=' := by
    rw [List.head?_reverse]
    exact h
  cases hr : s.data.reverse with
  | nil => rw [hr] at hrev; exact Option.noConfusion hrev
  | cons c t =>
    rw [hr] at hrev
    have hc : c = '=' := Option.some.inj hrev
    show List.isPrefixOf "=".data.reverse (s.data.reverse) = true
    rw [hr, hc]
    simp [List.isPrefixOf]

theorem joinSpace_getLast (gs : List String) (g : String) (c : Char)
    (hg : g.data.getLast? = some c) :
    (joinSpace (gs ++ [g])).data.getLast? = some c := by
  induction gs with
  | nil => exact hg
  | cons a as ih =>
    obtain ⟨b, bt, hbt⟩ : ∃ b bt, as ++ [g] = b :: bt := by
      cases as with
      | nil => exact ⟨g, [], rfl⟩
      | cons x xs => exact ⟨x, xs ++ [g], rfl⟩
    have hjoin : joinSpace ((a :: as) ++ [g]) = a ++ " " ++ joinSpace (as ++ [g]) := by
      show joinSpace (a :: (as ++ [g])) = _
      rw [hbt]
      rfl
    rw [hjoin, String.data_append, String.data_append, List.getLast?_append,
      List.getLast?_append]
    have hne : (joinSpace (as ++ [g])).data.getLast? = some c := ih
    rw [hne]
    rfl

theorem generateBbxx_endsWith (dir spd : Option ℚ) (lat lon : ℚ) (day hour : ℕ)
    (id : String) (wt : Option ℚ) :
    jsEndsWith (generateBbxxReport dir spd lat lon day hour id wt) "=" = true := by
  apply jsEndsWith_of_getLast
  show (joinSpace _).data.getLast? = some '='
  have h : ["BBXX", id, dayHour day hour, latCode lat, lonCode lat lon,
      "43///", cloudWindGroup dir spd,
      "1////", "2////", "4////", "5////", "7////", "8////", "222//",
      tempCode wt,
      "0////", "2////", "3////", "4////", "5////", "6////", "8////", "ICE", "/////="]
      = ["BBXX", id, dayHour day hour, latCode lat, lonCode lat lon,
      "43///", cloudWindGroup dir spd,
      "1////", "2////", "4////", "5////", "7////", "8////", "222//",
      tempCode wt,
      "0////", "2////", "3////", "4////", "5////", "6////", "8////", "ICE"]
      ++ ["/////="] := rfl
  rw [h]
  exact joinSpace_getLast _ _ '=' rfl

set_option maxHeartbeats 2000000 in
theorem decode_encode_eval (dir spd : Option ℚ) (lat lon : ℚ) (day hour : ℕ)
    (id : String) (wt : Option ℚ)
    (hid : ' ' ∉ id.data) (hid2 : id ≠ "222//")
    (hday1 : 1 ≤ day) (hday2 : day ≤ 31) (hhour : hour ≤ 23)
    (hlat1 : -90 ≤ lat) (hlat2 : lat ≤ 90) (hlon1 : -180 ≤ lon) (hlon2 : lon ≤ 180)
    (wF : Option ℤ × Option ℤ) (wc : WindClass) (wOk : Bool) (wIss : List Issue)
    (hw : windStep (cloudWindGroup dir spd) = (wF, wc, wOk, wIss))
    (wtV : Option ℚ) (tOk : Bool) (tIss : List Issue)
    (ht : tempStep (tempCode wt) = (wtV, tOk, tIss)) :
    validateAndDecodeBbxx (generateBbxxReport dir spd lat lon day hour id wt)
      = (DecodeRet.ok (wOk && tOk)
          { messageType := some "BBXX", stationId := some id,
            dayHourWind := some (dayHour day hour),
            day := some (day : ℤ), hour := some (hour : ℤ), windIndicator := some 4,
            latitudeCode := some (latCode lat),
            latitude := some (((round (|lat| * 10) : ℤ) : ℚ) / 10),
            longitudeCode := some (lonCode lat lon),
            quadrant := some ((getBbxxQuadrant lat lon : ℕ) : ℤ),
            longitudeTenths := some (round (|lon| * 10)),
            longitude := some (((round (|lon| * 10) : ℤ) : ℚ) / 10),
            actualLongitude := some (if lon < 0 then -(((round (|lon| * 10) : ℤ) : ℚ) / 10)
              else ((round (|lon| * 10) : ℤ) : ℚ) / 10),
            precipitation := some "43///",
            windGroup := some (cloudWindGroup dir spd),
            windDirection := wF.1, windSpeed := wF.2,
            tempGroup := some (tempCode wt), waterTemperature := wtV },
        wIss ++ tIss) := by
  have hsplit := jsSplit_generateBbxxReport dir spd lat lon day hour id wt hid
  have hne_id : (id = "222//") = False := eq_false hid2
  have hne_dh : (dayHour day hour = "222//") = False :=
    eq_false (string_ne_of_digits_all (dayHour_all_digits day hour) (by decide))
  have hne_lat : (latCode lat = "222//") = False :=
    eq_false (string_ne_of_digits_all (latCode_all_digits lat) (by decide))
  have hne_lon : (lonCode lat lon = "222//") = False :=
    eq_false (string_ne_of_digits_all (lonCode_all_digits lat lon) (by decide))
  have hne_cw : (cloudWindGroup dir spd = "222//") = False :=
    eq_false (cloudWindGroup_ne_marker dir spd)
  have hfind : (["BBXX", id, dayHour day hour, latCode lat, lonCode lat lon,
      "43///", cloudWindGroup dir spd,
      "1////", "2////", "4////", "5////", "7////", "8////", "222//",
      tempCode wt,
      "0////", "2////", "3////", "4////", "5////", "6////", "8////", "ICE",
      "/////="].findIdx? (fun p => p = "222//")) = some 13 := by
    simp only [List.findIdx?_cons, hne_id, hne_dh, hne_lat, hne_lon, hne_cw,
      decide_False, Bool.false_eq_true, if_false,
      show ("BBXX" = "222//") = False from eq_false (by decide),
      show ("43///" = "222//") = False from eq_false (by decide),
      show ("1////" = "222//") = False from eq_false (by decide),
      show ("2////" = "222//") = False from eq_false (by decide),
      show ("4////" = "222//") = False from eq_false (by decide),
      show ("5////" = "222//") = False from eq_false (by decide),
      show ("7////" = "222//") = False from eq_false (by decide),
      show ("8////" = "222//") = False from eq_false (by decide),
      show ("222//" = "222//") = True from eq_true rfl,
      decide_True, if_true]
  have hends := generateBbxx_endsWith dir spd lat lon day hour id wt
  have h15 : ¬ (jsSplit (generateBbxxReport dir spd lat lon day hour id wt)).length < 15 := by
    rw [hsplit]
    simp
  simp only [validateAndDecodeBbxx, hsplit]
  rw [if_neg (by rw [hsplit] at h15; exact h15)]
  dsimp only [List.getD_cons_zero, List.getD_cons_succ]
  rw [hfind, dayHourStep_eval day hour hday1 hday2 hhour, latStep_eval lat hlat1 hlat2,
    lonStep_eval lat lon hlon1 hlon2, hw, hends]
  dsimp only
  have hcond : (13 : ℕ) + 1 < (["BBXX", id, dayHour day hour, latCode lat,
      lonCode lat lon, "43///", cloudWindGroup dir spd,
      "1////", "2////", "4////", "5////", "7////", "8////", "222//",
      tempCode wt,
      "0////", "2////", "3////", "4////", "5////", "6////", "8////", "ICE",
      "/////="]).length := by simp
  rw [if_pos hcond]
  dsimp only [List.getD_cons_zero, List.getD_cons_succ]
  rw [ht]
  dsimp only
  simp [precipStep]

theorem round_995 : round ((199 : ℚ) / 2) = 100 := by norm_num [round_eq]

theorem cloudWindGroup_995 : cloudWindGroup (some (270 : ℚ)) (some ((199 : ℚ) / 2))
    = "/27100" := by
  show ("/" ++ padStart (intToString (round ((270 : ℚ) / 10))) 2 '0' ++
    (if (199 : ℚ) / 2 < 100 then padStart (intToString (round ((199 : ℚ) / 2))) 2 '0'
      else "//")) = _
  rw [if_pos (by norm_num), round_995, show round ((270 : ℚ) / 10) = 27 from by
    norm_num [round_eq]]
  apply String.ext
  simp [String.data_append, padStart, intToString, natToString, natDigits, digitChar]
  decide

theorem windStep_995 : windStep (cloudWindGroup (some (270 : ℚ)) (some ((199 : ℚ) / 2)))
    = ((none, none), WindClass.invalid, false,
      [⟨Severity.error, "Invalid wind group format"⟩]) := by
  rw [cloudWindGroup_995]
  decide

theorem tempCode_150 : tempCode (some (150 : ℚ)) = "041500" := by
  show ("0" ++ (if (0 : ℚ) ≤ 150 then "4" else "5") ++
    padStart (intToString (round (|(150 : ℚ)| * 10))) 3 '0') = _
  rw [if_pos (by norm_num), show round (|(150 : ℚ)| * 10) = 1500 from by
    rw [abs_of_nonneg (by norm_num : (0:ℚ) ≤ 150)]
    norm_num [round_eq]]
  apply String.ext
  simp [String.data_append, padStart, intToString, natToString, natDigits, digitChar]
  decide

theorem tempStep_150 : tempStep (tempCode (some (150 : ℚ)))
    = (none, false, [⟨Severity.error, "Invalid water temperature format"⟩]) := by
  rw [tempCode_150]
  decide

theorem abs_round_tenths (x : ℚ) : |((round (x * 10) : ℤ) : ℚ) / 10 - x| ≤ 1/20 := by
  have h := abs_sub_round (x * 10)
  rw [abs_sub_comm] at h
  have heq : ((round (x * 10) : ℤ) : ℚ) / 10 - x = (((round (x * 10) : ℤ) : ℚ) - x * 10) / 10 := by
    ring
  rw [heq, abs_div, abs_of_nonneg (by norm_num : (0:ℚ) ≤ 10)]
  linarith

theorem abs_round_tens (d : ℚ) : |((round (d / 10) * 10 : ℤ) : ℚ) - d| ≤ 5 := by
  have h := abs_sub_round (d / 10)
  rw [abs_sub_comm] at h
  have heq : ((round (d / 10) * 10 : ℤ) : ℚ) - d = (((round (d / 10) : ℤ) : ℚ) - d / 10) * 10 := by
    push_cast
    ring
  rw [heq, abs_mul, abs_of_nonneg (by norm_num : (0:ℚ) ≤ 10)]
  linarith

/-- C1 (amended): for every observation satisfying the invariant and every
space-free station id, the encoded message consists of exactly the
space-joined groups in the implemented order, which follows the section 4.5
table except that one additional omitted literal group 8//// sits between
the six omitted groups after the water temperature and the ICE group. -/
theorem C1_encode_group_order (o : AveragedObservation) (id : String)
    (hinv : ObsInvariant o) (hid : ' ' ∉ id.data) :
    jsSplit (encode o id)
      = ["BBXX", id, dayHour o.day o.hour, latCode o.lat, lonCode o.lat o.lon,
        "43///", cloudWindGroup o.trueWindDir o.trueWindSpeed,
        "1////", "2////", "4////", "5////", "7////", "8////", "222//",
        tempCode o.waterTemp,
        "0////", "2////", "3////", "4////", "5////", "6////", "8////", "ICE",
        "/////="] :=
  jsSplit_generateBbxxReport o.trueWindDir o.trueWindSpeed o.lat o.lon o.day o.hour id
    o.waterTemp hid

/-- C1 counterexample: at a concrete observation the encoded message's group
sequence is not the 23-group sequence the spec table describes (the encoder
emits an additional 8//// group before ICE). -/
theorem C1_encode_counterexample :
    jsSplit (encode ⟨10, 20, some 270, some 15, some 22, 15, 14⟩ "ABC")
      ≠ bbxxGroupsSpec ⟨10, 20, some 270, some 15, some 22, 15, 14⟩ "ABC" := by
  intro h
  rw [show encode ⟨10, 20, some 270, some 15, some 22, 15, 14⟩ "ABC"
      = generateBbxxReport (some 270) (some 15) 10 20 15 14 "ABC" (some 22) from rfl,
    jsSplit_generateBbxxReport _ _ _ _ _ _ _ _ (by decide), bbxxGroupsSpec] at h
  have hlen := congrArg List.length h
  simp at hlen

/-- Witness for C1 amended at a concrete observation and station id. -/
theorem C1_encode_group_order_witness :
    jsSplit (encode ⟨10, 20, some 270, some 15, some 22, 15, 14⟩ "ABC")
      = ["BBXX", "ABC", dayHour 15 14, latCode 10, lonCode 10 20, "43///",
        cloudWindGroup (some 270) (some 15),
        "1////", "2////", "4////", "5////", "7////", "8////", "222//",
        tempCode (some 22),
        "0////", "2////", "3////", "4////", "5////", "6////", "8////", "ICE",
        "/////="] :=
  C1_encode_group_order ⟨10, 20, some 270, some 15, some 22, 15, 14⟩ "ABC"
    ⟨by norm_num, by norm_num, by norm_num, by norm_num,
      ⟨270, rfl, by norm_num, by norm_num⟩, ⟨15, rfl, by norm_num⟩,
      by norm_num, by norm_num, by norm_num⟩ (by decide)

theorem latCode_length (lat : ℚ) (h1 : -90 ≤ lat) (h2 : lat ≤ 90) :
    (latCode lat).length = 5 := by
  have habs : |lat| * 10 ≤ (900 : ℕ) := by
    have : |lat| ≤ 90 := abs_le.mpr ⟨h1, h2⟩
    push_cast
    linarith
  have hr0 : (0 : ℤ) ≤ round (|lat| * 10) := round_nonneg_of_nonneg (by positivity)
  have hr900 : round (|lat| * 10) ≤ 900 := round_le_of_le_natCast habs
  have hlen3 : (padStart (intToString (round (|lat| * 10))) 3 '0').data.length = 3 :=
    padStart_data_length _ _ _ (intToString_length_le hr0 (by norm_num) (by
      have : (10:ℤ) ^ 3 = 1000 := by norm_num
      omega))
  show (latCode lat).data.length = 5
  rw [latCode_data]
  simp [hlen3]

theorem lonCode_length (lat lon : ℚ) (h1 : -180 ≤ lon) (h2 : lon ≤ 180) :
    (lonCode lat lon).length = 5 := by
  have habs : |lon| * 10 ≤ (1800 : ℕ) := by
    have : |lon| ≤ 180 := abs_le.mpr ⟨h1, h2⟩
    push_cast
    linarith
  have hr0 : (0 : ℤ) ≤ round (|lon| * 10) := round_nonneg_of_nonneg (by positivity)
  have hr1800 : round (|lon| * 10) ≤ 1800 := round_le_of_le_natCast habs
  have hlen4 : (padStart (intToString (round (|lon| * 10))) 4 '0').data.length = 4 :=
    padStart_data_length _ _ _ (intToString_length_le hr0 (by norm_num) (by
      have : (10:ℤ) ^ 4 = 10000 := by norm_num
      omega))
  show (lonCode lat lon).data.length = 5
  rw [lonCode_data]
  simp [hlen4]

theorem cloudWindGroup_length (d s : ℚ) (hd0 : 0 ≤ d) (hd360 : d < 360) (hs0 : 0 ≤ s)
    (hs : round s ≤ 99 ∨ 100 ≤ s) :
    (cloudWindGroup (some d) (some s)).length = 5 := by
  have hrA0 : (0 : ℤ) ≤ round (d / 10) := round_nonneg_of_nonneg (by positivity)
  have hrA36 : round (d / 10) ≤ 36 := by
    refine round_le_of_le_natCast ?_
    push_cast
    linarith
  have hlA : (padStart (intToString (round (d / 10))) 2 '0').data.length = 2 :=
    padStart_data_length _ _ _ (intToString_length_le hrA0 (by norm_num) (by
      have : (10:ℤ) ^ 2 = 100 := by norm_num
      omega))
  rcases hs with hs99 | hs100
  · have hs100' : s < 100 := round_lt_of_round_le hs99
    have hrB0 : (0 : ℤ) ≤ round s := round_nonneg_of_nonneg hs0
    have hlB : (padStart (intToString (round s)) 2 '0').data.length = 2 :=
      padStart_data_length _ _ _ (intToString_length_le hrB0 (by norm_num) (by
        have : (10:ℤ) ^ 2 = 100 := by norm_num
        omega))
    show (cloudWindGroup (some d) (some s)).data.length = 5
    rw [cloudWindGroup_data d s hs100']
    simp [hlA, hlB]
  · show (cloudWindGroup (some d) (some s)).data.length = 5
    have hdata : (cloudWindGroup (some d) (some s)).data
        = '/' :: ((padStart (intToString (round (d / 10))) 2 '0').data ++ "//".data) := by
      show ("/" ++ padStart (intToString (round (d / 10))) 2 '0' ++
        (if s < 100 then padStart (intToString (round s)) 2 '0' else "//")).data = _
      rw [if_neg (not_lt.mpr hs100), String.data_append, String.data_append]
      rfl
    rw [hdata]
    simp [hlA]

theorem tempCode_length (t : Option ℚ) (hb : ∀ x, t = some x → round (|x| * 10) ≤ 999) :
    (tempCode t).length = 5 := by
  cases t with
  | none => decide
  | some x =>
    have hr0 : (0 : ℤ) ≤ round (|x| * 10) := round_nonneg_of_nonneg (by positivity)
    have h999 := hb x rfl
    have hlen3 : (padStart (intToString (round (|x| * 10))) 3 '0').data.length = 3 :=
      padStart_data_length _ _ _ (intToString_length_le hr0 (by norm_num) (by
        have : (10:ℤ) ^ 3 = 1000 := by norm_num
        omega))
    show (tempCode (some x)).data.length = 5
    rw [tempCode_data]
    simp [hlen3]

theorem cloudWindGroup_chars (d s : ℚ) (hd0 : 0 ≤ d) (hs0 : 0 ≤ s)
    (hs : round s ≤ 99 ∨ 100 ≤ s) :
    ∀ c ∈ (cloudWindGroup (some d) (some s)).data, c.isDigit = true ∨ c = '/' := by
  have hrA0 : (0 : ℤ) ≤ round (d / 10) := round_nonneg_of_nonneg (by positivity)
  rcases hs with hs99 | hs100
  · rw [cloudWindGroup_data d s (round_lt_of_round_le hs99)]
    intro c hc
    rcases hc with _ | ⟨_, hc⟩
    · exact Or.inr rfl
    · rcases List.mem_append.mp hc with hm | hm
      · exact Or.inl (padStart_all_digits _ _ (intToString_all_digits hrA0) c hm)
      · exact Or.inl (padStart_all_digits _ _
          (intToString_all_digits (round_nonneg_of_nonneg hs0)) c hm)
  · have hdata : (cloudWindGroup (some d) (some s)).data
        = '/' :: ((padStart (intToString (round (d / 10))) 2 '0').data ++ "//".data) := by
      show ("/" ++ padStart (intToString (round (d / 10))) 2 '0' ++
        (if s < 100 then padStart (intToString (round s)) 2 '0' else "//")).data = _
      rw [if_neg (not_lt.mpr hs100), String.data_append, String.data_append]
      rfl
    rw [hdata]
    intro c hc
    rcases hc with _ | ⟨_, hc⟩
    · exact Or.inr rfl
    · rcases List.mem_append.mp hc with hm | hm
      · exact Or.inl (padStart_all_digits _ _ (intToString_all_digits hrA0) c hm)
      · rcases hm with _ | ⟨_, hm⟩
        · exact Or.inr rfl
        · rcases hm with _ | ⟨_, hm⟩
          · exact Or.inr rfl
          · exact absurd hm (List.not_mem_nil c)

theorem tempCode_chars (t : Option ℚ) :
    ∀ c ∈ (tempCode t).data, c.isDigit = true ∨ c = '/' := by
  cases t with
  | none => decide
  | some x =>
    rw [tempCode_data]
    intro c hc
    rcases hc with _ | ⟨_, hc⟩
    · exact Or.inl (by decide)
    · rcases hc with _ | ⟨_, hc⟩
      · split
        · exact Or.inl (by decide)
        · exact Or.inl (by decide)
      · exact Or.inl (padStart_all_digits _ _
          (intToString_all_digits (round_nonneg_of_nonneg (by positivity))) c hc)

/-- C3 counterexample: at wind direction 270 (in range) and wind speed 99.5
(nonnegative, below 100) the wind group has 6 characters, not 5; likewise the
water-temperature group for 150 degrees has 6 characters. -/
theorem C3_wire_counterexample :
    (cloudWindGroup (some (270 : ℚ)) (some ((199 : ℚ) / 2))).length = 6 ∧
    (0 : ℚ) ≤ 270 ∧ (270 : ℚ) < 360 ∧ (0 : ℚ) ≤ (199 : ℚ) / 2 ∧
    (199 : ℚ) / 2 < 100 ∧
    (tempCode (some (150 : ℚ))).length = 6 := by
  refine ⟨?_, by norm_num, by norm_num, by norm_num, by norm_num, ?_⟩
  · rw [cloudWindGroup_995]
    decide
  · rw [tempCode_150]
    decide

/-- C3 (amended): under the invariant, and provided the rounded wind speed
fits two digits (or is at least 100, which selects the sentinel) and the
rounded water-temperature tenths fit three digits, the message has at least
15 groups (exactly 24) and every numeric group has exactly its fixed width 5
with every character a digit or a slash. -/
theorem C3_wire_invariant (o : AveragedObservation) (id : String)
    (hinv : ObsInvariant o) (hid : ' ' ∉ id.data)
    (hspd : ∀ s, o.trueWindSpeed = some s → round s ≤ 99 ∨ 100 ≤ s)
    (hwt : ∀ t, o.waterTemp = some t → round (|t| * 10) ≤ 999) :
    15 ≤ (jsSplit (encode o id)).length ∧ (jsSplit (encode o id)).length = 24 ∧
    (dayHour o.day o.hour).length = 5 ∧
    (latCode o.lat).length = 5 ∧
    (lonCode o.lat o.lon).length = 5 ∧
    (cloudWindGroup o.trueWindDir o.trueWindSpeed).length = 5 ∧
    (tempCode o.waterTemp).length = 5 ∧
    (∀ c ∈ (dayHour o.day o.hour).data, c.isDigit = true ∨ c = '/') ∧
    (∀ c ∈ (latCode o.lat).data, c.isDigit = true ∨ c = '/') ∧
    (∀ c ∈ (lonCode o.lat o.lon).data, c.isDigit = true ∨ c = '/') ∧
    (∀ c ∈ (cloudWindGroup o.trueWindDir o.trueWindSpeed).data,
      c.isDigit = true ∨ c = '/') ∧
    (∀ c ∈ (tempCode o.waterTemp).data, c.isDigit = true ∨ c = '/') := by
  obtain ⟨hlat1, hlat2, hlon1, hlon2, ⟨d, hd, hd0, hd360⟩, ⟨s, hsv, hs0⟩,
    hday1, hday2, hhour⟩ := hinv
  have hlen24 : (jsSplit (encode o id)).length = 24 := by
    show (jsSplit (generateBbxxReport o.trueWindDir o.trueWindSpeed o.lat o.lon
      o.day o.hour id o.waterTemp)).length = 24
    rw [jsSplit_generateBbxxReport o.trueWindDir o.trueWindSpeed o.lat o.lon o.day o.hour
      id o.waterTemp hid]
    rfl
  refine ⟨by omega, hlen24, dayHour_length o.day o.hour (by omega) (by omega),
    latCode_length o.lat hlat1 hlat2, lonCode_length o.lat o.lon hlon1 hlon2, ?_, ?_,
    fun c hc => Or.inl (dayHour_all_digits o.day o.hour c hc),
    fun c hc => Or.inl (latCode_all_digits o.lat c hc),
    fun c hc => Or.inl (lonCode_all_digits o.lat o.lon c hc), ?_, tempCode_chars o.waterTemp⟩
  · rw [hd, hsv]
    exact cloudWindGroup_length d s hd0 hd360 hs0 (hspd s hsv)
  · exact tempCode_length o.waterTemp hwt
  · rw [hd, hsv]
    exact cloudWindGroup_chars d s hd0 hs0 (hspd s hsv)

/-- Witness for C3 amended at a concrete observation. -/
theorem C3_wire_invariant_witness :
    15 ≤ (jsSplit (encode ⟨10, 20, some 270, some 15, some 22, 15, 14⟩ "ABC")).length ∧
    (jsSplit (encode ⟨10, 20, some 270, some 15, some 22, 15, 14⟩ "ABC")).length = 24 ∧
    (dayHour 15 14).length = 5 ∧
    (latCode 10).length = 5 ∧
    (lonCode 10 20).length = 5 ∧
    (cloudWindGroup (some 270) (some 15)).length = 5 ∧
    (tempCode (some 22)).length = 5 ∧
    (∀ c ∈ (dayHour 15 14).data, c.isDigit = true ∨ c = '/') ∧
    (∀ c ∈ (latCode 10).data, c.isDigit = true ∨ c = '/') ∧
    (∀ c ∈ (lonCode 10 20).data, c.isDigit = true ∨ c = '/') ∧
    (∀ c ∈ (cloudWindGroup (some 270) (some 15)).data, c.isDigit = true ∨ c = '/') ∧
    (∀ c ∈ (tempCode (some 22)).data, c.isDigit = true ∨ c = '/') :=
  C3_wire_invariant ⟨10, 20, some 270, some 15, some 22, 15, 14⟩ "ABC"
    ⟨by norm_num, by norm_num, by norm_num, by norm_num,
      ⟨270, rfl, by norm_num, by norm_num⟩, ⟨15, rfl, by norm_num⟩,
      by norm_num, by norm_num, by norm_num⟩ (by decide)
    (by
      intro s hs
      rw [Option.some.injEq] at hs
      subst hs
      left
      norm_num [round_eq])
    (by
      intro t ht
      rw [Option.some.injEq] at ht
      subst ht
      rw [abs_of_nonneg (by norm_num : (0:ℚ) ≤ 22)]
      norm_num [round_eq])

theorem round_tenths_nonneg (x : ℚ) : (0 : ℚ) ≤ ((round (|x| * 10) : ℤ) : ℚ) / 10 := by
  have h0 : (0 : ℤ) ≤ round (|x| * 10) := round_nonneg_of_nonneg (by positivity)
  have h0q : (0 : ℚ) ≤ ((round (|x| * 10) : ℤ) : ℚ) := by exact_mod_cast h0
  linarith

theorem abs_signed_tenths (x : ℚ) :
    |(if x < 0 then -(((round (|x| * 10) : ℤ) : ℚ) / 10)
      else ((round (|x| * 10) : ℤ) : ℚ) / 10) - x| ≤ 1 / 20 := by
  by_cases hneg : x < 0
  · rw [if_pos hneg, abs_of_neg hneg]
    have heq : -(((round (-x * 10) : ℤ) : ℚ) / 10) - x
        = -((((round (-x * 10) : ℤ) : ℚ) / 10) - -x) := by ring
    rw [heq, abs_neg]
    exact abs_round_tenths (-x)
  · rw [if_neg hneg, abs_of_nonneg (not_lt.mp hneg)]
    exact abs_round_tenths x

/-- C2 (amended): decoding the encoded message recovers, for an observation
satisfying the invariant and a space-free station id distinct from the
section-2 marker, provided the rounded wind speed fits two digits and the
rounded water-temperature tenths fit three: a valid verdict; the unsigned
latitude in tenths together with the quadrant digit (3 or 5 exactly for
southern latitudes), from which the signed latitude is recovered to within
a twentieth of a degree; the signed longitude to within a twentieth; the
signed water temperature to within a twentieth of a degree Celsius (null
staying null); and the wind direction rounded to the nearest 10 degrees. -/
theorem C2_roundtrip (o : AveragedObservation) (id : String)
    (hinv : ObsInvariant o) (hid : ' ' ∉ id.data) (hid2 : id ≠ "222//")
    (hspd : ∀ s, o.trueWindSpeed = some s → round s ≤ 99)
    (hwt : ∀ t, o.waterTemp = some t → round (|t| * 10) ≤ 999) :
    ∃ a iss, validateAndDecodeBbxx (encode o id) = (DecodeRet.ok true a, iss) ∧
      (∃ la, a.latitude = some la ∧ 0 ≤ la ∧
        ((a.quadrant = some 3 ∨ a.quadrant = some 5) ↔ o.lat < 0) ∧
        |(if o.lat < 0 then -la else la) - o.lat| ≤ 1 / 20) ∧
      (∃ lo, a.actualLongitude = some lo ∧ |lo - o.lon| ≤ 1 / 20) ∧
      (∀ t, o.waterTemp = some t →
        ∃ tv, a.waterTemperature = some tv ∧ |tv - t| ≤ 1 / 20) ∧
      (o.waterTemp = none → a.waterTemperature = none) ∧
      (∀ d, o.trueWindDir = some d →
        a.windDirection = some (round (d / 10) * 10) ∧
        |((round (d / 10) * 10 : ℤ) : ℚ) - d| ≤ 5) := by
  obtain ⟨hlat1, hlat2, hlon1, hlon2, ⟨d, hd, hd0, hd360⟩, ⟨s, hsv, hs0⟩,
    hday1, hday2, hhour⟩ := hinv
  have hw := windStep_eval d s hd0 hd360 hs0 (hspd s hsv)
  have hlatp : ∃ la, some (((round (|o.lat| * 10) : ℤ) : ℚ) / 10) = some la ∧ 0 ≤ la ∧
      ((some ((getBbxxQuadrant o.lat o.lon : ℕ) : ℤ) = some 3 ∨
        some ((getBbxxQuadrant o.lat o.lon : ℕ) : ℤ) = some 5) ↔ o.lat < 0) ∧
      |(if o.lat < 0 then -la else la) - o.lat| ≤ 1 / 20 := by
    refine ⟨((round (|o.lat| * 10) : ℤ) : ℚ) / 10, rfl, round_tenths_nonneg o.lat, ?_, ?_⟩
    · have hq := getBbxxQuadrant_south_iff o.lat o.lon
      constructor
      · intro h
        apply hq.mp
        rcases h with h | h
        · left
          rw [Option.some.injEq] at h
          exact_mod_cast h
        · right
          rw [Option.some.injEq] at h
          exact_mod_cast h
      · intro h
        rcases hq.mpr h with h3 | h5
        · left
          rw [h3]
          simp
        · right
          rw [h5]
          simp
    · exact abs_signed_tenths o.lat
  have hlonp : ∃ lo, some (if o.lon < 0 then -(((round (|o.lon| * 10) : ℤ) : ℚ) / 10)
      else ((round (|o.lon| * 10) : ℤ) : ℚ) / 10) = some lo ∧ |lo - o.lon| ≤ 1 / 20 :=
    ⟨_, rfl, abs_signed_tenths o.lon⟩
  have hwind : ∀ d', o.trueWindDir = some d' →
      (some (round (d / 10) * 10), some (round s)).1 = some (round (d' / 10) * 10) ∧
      |((round (d' / 10) * 10 : ℤ) : ℚ) - d'| ≤ 5 := by
    intro d' hd'
    rw [hd, Option.some.injEq] at hd'
    subst hd'
    exact ⟨rfl, abs_round_tens d⟩
  rcases hO : o.waterTemp with _ | t
  · have heq := decode_encode_eval o.trueWindDir o.trueWindSpeed o.lat o.lon
      o.day o.hour id o.waterTemp hid hid2 hday1 hday2 hhour hlat1 hlat2 hlon1 hlon2
      (some (round (d / 10) * 10), some (round s)) WindClass.parsed true []
      (by rw [hd, hsv]; exact hw)
      none true [⟨Severity.warning, "Water temperature unusual sign indicator"⟩]
      (by rw [hO]; exact tempStep_none_eval)
    refine ⟨_, _, heq, hlatp, hlonp, ?_, fun _ => rfl, hwind⟩
    intro t htv
    exact absurd htv (by simp)
  · have hts := tempStep_some_eval t (hwt t hO)
    obtain ⟨iss, htse, _⟩ := hts
    have heq := decode_encode_eval o.trueWindDir o.trueWindSpeed o.lat o.lon
      o.day o.hour id o.waterTemp hid hid2 hday1 hday2 hhour hlat1 hlat2 hlon1 hlon2
      (some (round (d / 10) * 10), some (round s)) WindClass.parsed true []
      (by rw [hd, hsv]; exact hw)
      (some (if 0 ≤ t then ((round (|t| * 10) : ℤ) : ℚ) / 10
        else -(((round (|t| * 10) : ℤ) : ℚ) / 10))) true iss
      (by rw [hO]; exact htse)
    refine ⟨_, _, heq, hlatp, hlonp, ?_, ?_, hwind⟩
    · intro t' ht'
      rw [Option.some.injEq] at ht'
      subst ht'
      refine ⟨_, rfl, ?_⟩
      by_cases h0 : 0 ≤ t
      · rw [if_pos h0, abs_of_nonneg h0]
        exact abs_round_tenths t
      · rw [if_neg h0, abs_of_neg (not_le.mp h0)]
        have heq2 : -(((round (-t * 10) : ℤ) : ℚ) / 10) - t
            = -((((round (-t * 10) : ℤ) : ℚ) / 10) - -t) := by ring
        rw [heq2, abs_neg]
        exact abs_round_tenths (-t)
    · intro hc
      exact absurd hc (by simp)

/-- C2 counterexample: the observation with latitude -10, longitude 20, wind
direction 270, wind speed 99.5 (under 100 knots), water temperature 150, day
15 and hour 14 satisfies the invariant, yet decoding its encoding yields an
invalid verdict with no decoded wind direction and no decoded water
temperature: 99.5 rounds to 100, overflowing the wind group, and 150 degrees
overflows the temperature group. -/
theorem C2_roundtrip_counterexample :
    ObsInvariant ⟨-10, 20, some 270, some ((199 : ℚ) / 2), some 150, 15, 14⟩ ∧
    (199 : ℚ) / 2 < 100 ∧
    ∃ a iss, validateAndDecodeBbxx
        (encode ⟨-10, 20, some 270, some ((199 : ℚ) / 2), some 150, 15, 14⟩ "WXH9553")
      = (DecodeRet.ok false a, iss) ∧
      a.windDirection = none ∧ a.waterTemperature = none := by
  refine ⟨⟨by norm_num, by norm_num, by norm_num, by norm_num,
    ⟨270, rfl, by norm_num, by norm_num⟩, ⟨(199 : ℚ) / 2, rfl, by norm_num⟩,
    by norm_num, by norm_num, by norm_num⟩, by norm_num, ?_⟩
  have heq := decode_encode_eval (some (270 : ℚ)) (some ((199 : ℚ) / 2)) (-10) 20 15 14
    "WXH9553" (some (150 : ℚ)) (by decide) (by decide) (by norm_num) (by norm_num)
    (by norm_num) (by norm_num) (by norm_num) (by norm_num) (by norm_num)
    (none, none) WindClass.invalid false [⟨Severity.error, "Invalid wind group format"⟩]
    windStep_995
    none false [⟨Severity.error, "Invalid water temperature format"⟩] tempStep_150
  exact ⟨_, _, heq, rfl, rfl⟩

/-- Witness for C2 amended at a concrete observation. -/
theorem C2_roundtrip_witness :
    ∃ a iss, validateAndDecodeBbxx
        (encode ⟨10, 20, some 270, some 15, some 22, 15, 14⟩ "WXH9553")
      = (DecodeRet.ok true a, iss) ∧
      (∃ la, a.latitude = some la ∧ 0 ≤ la ∧
        ((a.quadrant = some 3 ∨ a.quadrant = some 5) ↔ (10 : ℚ) < 0) ∧
        |(if (10 : ℚ) < 0 then -la else la) - 10| ≤ 1 / 20) ∧
      (∃ lo, a.actualLongitude = some lo ∧ |lo - 20| ≤ 1 / 20) ∧
      (∀ t, (some (22 : ℚ) : Option ℚ) = some t →
        ∃ tv, a.waterTemperature = some tv ∧ |tv - t| ≤ 1 / 20) ∧
      ((some (22 : ℚ) : Option ℚ) = none → a.waterTemperature = none) ∧
      (∀ d, (some (270 : ℚ) : Option ℚ) = some d →
        a.windDirection = some (round (d / 10) * 10) ∧
        |((round (d / 10) * 10 : ℤ) : ℚ) - d| ≤ 5) :=
  C2_roundtrip ⟨10, 20, some 270, some 15, some 22, 15, 14⟩ "WXH9553"
    ⟨by norm_num, by norm_num, by norm_num, by norm_num,
      ⟨270, rfl, by norm_num, by norm_num⟩, ⟨15, rfl, by norm_num⟩,
      by norm_num, by norm_num, by norm_num⟩ (by decide) (by decide)
    (by
      intro s hs
      rw [Option.some.injEq] at hs
      subst hs
      norm_num [round_eq])
    (by
      intro t ht
      rw [Option.some.injEq] at ht
      subst ht
      rw [abs_of_nonneg (by norm_num : (0 : ℚ) ≤ 22)]
      norm_num [round_eq])

/-- C8: a well-formed message whose wind group is the all-slash sentinel
decodes with the wind classified as omitted, no error issue and a valid
verdict, while the same message with a malformed six-character wind group is
classified invalid, carries an error issue and an invalid verdict. -/
theorem C8_wind_sentinel_vs_invalid :
    (∃ a iss, validateAndDecodeBbxx
        (generateBbxxReport none none 10 20 15 14 "9RM2K7C" none)
      = (DecodeRet.ok true a, iss) ∧
      a.windGroup = some "/////" ∧ a.windDirection = none ∧ a.windSpeed = none ∧
      (∀ i ∈ iss, i.sev ≠ Severity.error)) ∧
    windStep "/////" = ((none, none), WindClass.omitted, true, []) ∧
    (∃ a iss, validateAndDecodeBbxx
        (generateBbxxReport (some 270) (some ((199 : ℚ) / 2)) 10 20 15 14
          "9RM2K7C" (some 22))
      = (DecodeRet.ok false a, iss) ∧
      a.windDirection = none ∧
      (⟨Severity.error, "Invalid wind group format"⟩ : Issue) ∈ iss) ∧
    windStep (cloudWindGroup (some (270 : ℚ)) (some ((199 : ℚ) / 2)))
      = ((none, none), WindClass.invalid, false,
        [⟨Severity.error, "Invalid wind group format"⟩]) := by
  refine ⟨?_, windStep_sentinel, ?_, windStep_995⟩
  · have heq := decode_encode_eval none none 10 20 15 14 "9RM2K7C" none
      (by decide) (by decide) (by norm_num) (by norm_num) (by norm_num)
      (by norm_num) (by norm_num) (by norm_num) (by norm_num)
      (none, none) WindClass.omitted true [] windStep_sentinel
      none true [⟨Severity.warning, "Water temperature unusual sign indicator"⟩]
      tempStep_none_eval
    refine ⟨_, _, heq, rfl, rfl, rfl, ?_⟩
    intro i hi
    simp only [List.nil_append, List.mem_singleton] at hi
    rw [hi]
    decide
  · obtain ⟨iss, hts, hwarn⟩ := tempStep_some_eval 22
      (by rw [abs_of_nonneg (by norm_num : (0 : ℚ) ≤ 22)]; norm_num [round_eq])
    have heq := decode_encode_eval (some (270 : ℚ)) (some ((199 : ℚ) / 2)) 10 20 15 14
      "9RM2K7C" (some (22 : ℚ)) (by decide) (by decide) (by norm_num) (by norm_num)
      (by norm_num) (by norm_num) (by norm_num) (by norm_num) (by norm_num)
      (none, none) WindClass.invalid false [⟨Severity.error, "Invalid wind group format"⟩]
      windStep_995 _ true iss hts
    refine ⟨_, _, heq, rfl, ?_⟩
    exact List.mem_append_left _ (by simp)
